import Mathlib

/-
  Verification of the config-parser-ts repository (mischareitsma/config-parser-ts).

  Shallow embedding of:
    - the JSON value model the parser works on (src/src/parser.ts assumes the
      result of JSON.parse);
    - the element model (the current elements module: ObjectElement, ArrayElement,
      BooleanElement, NumberElement, StringElement, ConfigElementBuilder and the
      construction-time errors);
    - the validation engine of src/src/parser.ts (ConfigParser.validate,
      validateObject, validateArray, validateBoolean, validateNumber,
      validateString, checkRange, addError, parse, getErrors).

  JavaScript numbers are modelled as Int (all claims are about integral values;
  NaN and infinities are out of scope).  The notorious JS quirks the source
  relies on are embedded explicitly:
    - typeof null = "object" and typeof [] = "object" (jsTypeof below);
    - numeric truthiness: a number is falsy exactly when it equals 0, so
      `if (max && n > max)` in checkRange ignores a bound that equals 0;
    - object truthiness: undefined is falsy, every object is truthy
      (Option.isSome below).

  Mutable instance state is passed explicitly:
    - `this.errors` is `errsBefore ++ delta`: every validation function takes the
      error list as of its call (`errsBefore`) and returns the list of errors it
      appends (its delta).  `throwOnFirstError` makes addError throw the error
      just recorded; the exceptional channel of `Res` carries the thrown error
      together with the delta recorded up to and including it.
    - in-place mutation of the decoded tree (pruning) is modelled by returning
      the updated value.

  The recursion of validateUnknownElement through the schema tree is embedded
  with a fuel parameter consumed once per dispatch; fuel exhaustion performs no
  checks and returns the value unchanged, so any fuel larger than the depth of
  the schema tree gives exactly the source behaviour.  General theorems below
  hold for every fuel value.
-/

namespace ConfigParserTs

/-- JSON values as produced by JSON.parse (numbers modelled as Int). -/
inductive JSONValue where
  | null : JSONValue
  | bool (b : Bool) : JSONValue
  | num (n : Int) : JSONValue
  | str (s : String) : JSONValue
  | arr (elems : List JSONValue) : JSONValue
  | obj (fields : List (String × JSONValue)) : JSONValue
deriving Repr

/-- JavaScript typeof on a JSON value: null and arrays and objects all report
"object". -/
def jsTypeof : JSONValue → String
  | .null => "object"
  | .bool _ => "boolean"
  | .num _ => "number"
  | .str _ => "string"
  | .arr _ => "object"
  | .obj _ => "object"

/-- Array.isArray. -/
def isArrayV : JSONValue → Bool
  | .arr _ => true
  | _ => false

/-- v === null. -/
def isNullValue : JSONValue → Bool
  | .null => true
  | _ => false

/-- Whether the value is a structural record (an object, not null, not an
array): the "record" structural tag of the spec. -/
def isRecord : JSONValue → Bool
  | .obj _ => true
  | _ => false

/-- field.startsWith dollarSign on a field key. -/
def startsWithDollar (s : String) : Bool :=
  match s.data with
  | c :: _ => c = '$'
  | [] => false

/-- Primitive JSON types (the PrimitiveJSONType union of elements.ts),
used only by the inert defaultValue attribute. -/
inductive PrimitiveJSONType where
  | str (s : String)
  | num (n : Int)
  | bool (b : Bool)
deriving Repr, DecidableEq

/--
The element model: one constructor per concrete ConfigElement class of the
current elements module.  Common fields (name, isRequired with default true,
canBeNull with default false) are inlined in every constructor.

  - objectE: children map (insertion-ordered association list keyed by the
    child name, as ObjectElement.children : Map of string to ConfigElement);
  - arrayE: allowNull flag, the typed-set elements map (keyed by the
    ConfigElementType string tags "string" "number" "boolean" "array"
    "object"), and the orderedElements list;
  - numberE: minValue and maxValue, absent (undefined) unless set;
  - stringE: minLength and maxLength, plus the validValues list (field
    `private validValues: string[] = []` of StringElement in the current
    elements revision of the snapshot, the one that declares addValidValues
    and getValidValues); the semantics that consumes it is embedded from
    ConfigParser.validateString.
-/
inductive ConfigElement where
  | objectE (name : Option String) (isRequired : Bool) (canBeNull : Bool)
      (children : List (String × ConfigElement)) : ConfigElement
  | arrayE (name : Option String) (isRequired : Bool) (canBeNull : Bool)
      (allowNull : Bool) (elements : List (String × ConfigElement))
      (orderedElements : List ConfigElement) : ConfigElement
  | booleanE (name : Option String) (isRequired : Bool) (canBeNull : Bool)
      (defaultValue : Option PrimitiveJSONType) : ConfigElement
  | numberE (name : Option String) (isRequired : Bool) (canBeNull : Bool)
      (defaultValue : Option PrimitiveJSONType)
      (minValue : Option Int) (maxValue : Option Int) : ConfigElement
  | stringE (name : Option String) (isRequired : Bool) (canBeNull : Bool)
      (defaultValue : Option PrimitiveJSONType)
      (minLength : Option Int) (maxLength : Option Int)
      (validValues : List String) : ConfigElement
deriving Repr

namespace ConfigElement

/-- ConfigElement.getName. -/
def getName : ConfigElement → Option String
  | objectE n _ _ _ => n
  | arrayE n _ _ _ _ _ => n
  | booleanE n _ _ _ => n
  | numberE n _ _ _ _ _ => n
  | stringE n _ _ _ _ _ _ => n

/-- ConfigElement.isRequired. -/
def isRequiredE : ConfigElement → Bool
  | objectE _ r _ _ => r
  | arrayE _ r _ _ _ _ => r
  | booleanE _ r _ _ => r
  | numberE _ r _ _ _ _ => r
  | stringE _ r _ _ _ _ _ => r

/-- ConfigElement.canBeNull. -/
def canBeNullE : ConfigElement → Bool
  | objectE _ _ c _ => c
  | arrayE _ _ c _ _ _ => c
  | booleanE _ _ c _ => c
  | numberE _ _ c _ _ _ => c
  | stringE _ _ c _ _ _ _ => c

/-- ObjectElement.children (empty for the other variants, which have none). -/
def getChildren : ConfigElement → List (String × ConfigElement)
  | objectE _ _ _ ch => ch
  | _ => []

/-- ObjectElement.getChildFieldNames. -/
def getChildFieldNames (ce : ConfigElement) : List String :=
  (ce.getChildren).map (fun p => p.1)

/-- ObjectElement.getChild: children.get(childName), undefined when absent. -/
def getChild (ce : ConfigElement) (childName : String) : Option ConfigElement :=
  (ce.getChildren).lookup childName

/-- ObjectElement.getRequiredChildren: child names whose element is required. -/
def getRequiredChildren (ce : ConfigElement) : List String :=
  (ce.getChildFieldNames).filter (fun c =>
    match ce.getChild c with
    | some e => e.isRequiredE
    | none => false)

/-- ArrayElement.allowNullElements (false for other variants). -/
def allowNullElements : ConfigElement → Bool
  | arrayE _ _ _ an _ _ => an
  | _ => false

/-- ArrayElement typed-set map (elements field). -/
def getElementsMap : ConfigElement → List (String × ConfigElement)
  | arrayE _ _ _ _ els _ => els
  | _ => []

/-- ArrayElement.getOrderedElements. -/
def getOrderedElements : ConfigElement → List ConfigElement
  | arrayE _ _ _ _ _ oe => oe
  | _ => []

/-- ArrayElement.allowAnyElement: elements.size === 0 and
orderedElements.length === 0. -/
def allowAnyElement (ce : ConfigElement) : Bool :=
  (ce.getElementsMap).isEmpty && (ce.getOrderedElements).isEmpty

/-- ArrayElement.isValidElementType: elements.has(elemType). -/
def isValidElementType (ce : ConfigElement) (elemType : String) : Bool :=
  ((ce.getElementsMap).lookup elemType).isSome

/-- ArrayElement.getElementConfig: elements.get(elemType), undefined when the
type has no slot. -/
def getElementConfig (ce : ConfigElement) (elemType : String) : Option ConfigElement :=
  (ce.getElementsMap).lookup elemType

/-- NumberElement.getMinValue (undefined unless set). -/
def getMinValue : ConfigElement → Option Int
  | numberE _ _ _ _ mn _ => mn
  | _ => none

/-- NumberElement.getMaxValue. -/
def getMaxValue : ConfigElement → Option Int
  | numberE _ _ _ _ _ mx => mx
  | _ => none

/-- StringElement.getMinLength. -/
def getMinLength : ConfigElement → Option Int
  | stringE _ _ _ _ mn _ _ => mn
  | _ => none

/-- StringElement.getMaxLength. -/
def getMaxLength : ConfigElement → Option Int
  | stringE _ _ _ _ _ mx _ => mx
  | _ => none

/-- StringElement.getValidValues of the current elements revision: it returns
a spread copy of the stored validValues array (which defaults to the empty
list); at the pure value level the copy equals the stored list. -/
def getValidValues : ConfigElement → List String
  | stringE _ _ _ _ _ _ vv => vv
  | _ => []

/-- StringElement.addValidValues: push the passed values onto the stored
validValues array. -/
def addValidValues (ce : ConfigElement) (values : List String) : ConfigElement :=
  match ce with
  | stringE n r c dv mn mx vv => stringE n r c dv mn mx (vv ++ values)
  | e => e

/--
isCorrectType per variant:
  - ObjectElement: typeof element === "object" and not Array.isArray(element);
  - ArrayElement: typeof element === "object" and Array.isArray(element);
  - BooleanElement / NumberElement / StringElement: exact typeof match.
-/
def isCorrectType (ce : ConfigElement) (element : JSONValue) : Bool :=
  match ce with
  | objectE _ _ _ _ => (jsTypeof element == "object") && !(isArrayV element)
  | arrayE _ _ _ _ _ _ => (jsTypeof element == "object") && isArrayV element
  | booleanE _ _ _ _ => jsTypeof element == "boolean"
  | numberE _ _ _ _ _ _ => jsTypeof element == "number"
  | stringE _ _ _ _ _ _ _ => jsTypeof element == "string"

/-- The element is one of the three primitive variants. -/
def isPrimitiveElement : ConfigElement → Bool
  | booleanE _ _ _ _ => true
  | numberE _ _ _ _ _ _ => true
  | stringE _ _ _ _ _ _ _ => true
  | _ => false

end ConfigElement

/-- The validation error classes of src/src/parser.ts.  NullValueError is a
subclass of InvalidValueError and NullArrayElementError a subclass of
InvalidArrayContentsError in the source; here each class is its own
constructor. -/
inductive VError where
  | invalidRootType (msg : String)
  | invalidType (actualType expectedType : String)
  | invalidArrayElementType (actualType : String)
  | missingRequiredField (field : String)
  | invalidValue (msg : String)
  | nullValue (fieldName : Option String)
  | invalidArrayContents (msg : String)
  | nullArrayElement
deriving Repr, DecidableEq

/-- Message of InvalidValueError for a value above the maximum. -/
def greaterThanMaxMsg (n mx : Int) : String :=
  "Value " ++ toString n ++ " is greater then maximum " ++ toString mx

/-- Message of InvalidValueError for a value below the minimum. -/
def lessThanMinMsg (n mn : Int) : String :=
  "Value " ++ toString n ++ " is less then minimum " ++ toString mn

/-- Message of InvalidValueError for a string outside the enumeration
(validValues.toString() joins with commas). -/
def invalidEnumMsg (s : String) (validValues : List String) : String :=
  "Invalid value " ++ s ++ ", valid values: " ++ String.intercalate "," validValues

/-- The three ConfigParser option flags, already resolved to their effective
values (the constructor applies the defaults, see mkParserFlags). -/
structure ParserFlags where
  throwOnFirstError : Bool
  pruneUnknownElements : Bool
  pruneDollarElements : Bool
deriving Repr, DecidableEq

/-- The optional ConfigParserOptions object handed to the constructor. -/
structure ConfigParserOptions where
  throwOnFirstError : Option Bool := none
  pruneUnknownElements : Option Bool := none
  pruneDollarElements : Option Bool := none

/-- The ConfigParser constructor: no options leaves the field defaults
(false, false, true); with options, the two double-bang coercions default to
false and pruneDollarElements keeps its default unless the option is
defined. -/
def mkParserFlags : Option ConfigParserOptions → ParserFlags
  | none => { throwOnFirstError := false, pruneUnknownElements := false,
              pruneDollarElements := true }
  | some o =>
      { throwOnFirstError := o.throwOnFirstError.getD false,
        pruneUnknownElements := o.pruneUnknownElements.getD false,
        pruneDollarElements := o.pruneDollarElements.getD true }

/--
Result of a validation step.  `ok (delta, a)`: the call appended `delta` to
this.errors and produced `a`.  `error (e, delta)`: addError with
throwOnFirstError threw `e` after appending; `delta` is everything appended by
this call up to and including `e`.
-/
abbrev Res (α : Type) : Type := Except (VError × List VError) (List VError × α)

/-- A step that appends nothing. -/
def pureRes {α : Type} (a : α) : Res α := .ok ([], a)

/-- Sequencing of validation steps; the continuation receives the delta of the
first step (so it can extend its view of this.errors). -/
def bindRes {α β : Type} (r : Res α) (k : List VError → α → Res β) : Res β :=
  match r with
  | .error (e, d) => .error (e, d)
  | .ok (d, a) =>
      match k d a with
      | .error (e, d2) => .error (e, d ++ d2)
      | .ok (d2, b) => .ok (d ++ d2, b)

/-- ConfigParser.addError: push the error; if throwOnFirstError, throw that
same error. -/
def addError (flags : ParserFlags) (e : VError) : Res Unit :=
  if flags.throwOnFirstError then .error (e, [e]) else .ok ([e], ())

/-- forEach over a list of errors, each through addError. -/
def addErrorsList (flags : ParserFlags) : List VError → Res Unit
  | [] => pureRes ()
  | e :: rest => bindRes (addError flags e) (fun _ _ => addErrorsList flags rest)

/--
ConfigParser.checkRange(n, min, max).  The source guards each bound with
JavaScript numeric truthiness (`if (max && n > max)`), so a bound that is
undefined or exactly 0 is skipped.  The max check runs before the min check.
-/
def checkRange (flags : ParserFlags) (n : Int) (mn mx : Option Int) : Res Unit :=
  bindRes
    (match mx with
     | some m => if m ≠ 0 ∧ n > m
                 then addError flags (.invalidValue (greaterThanMaxMsg n m))
                 else pureRes ()
     | none => pureRes ())
    (fun _ _ =>
      match mn with
      | some m => if m ≠ 0 ∧ n < m
                  then addError flags (.invalidValue (lessThanMinMsg n m))
                  else pureRes ()
      | none => pureRes ())

/-- json[f] on a decoded object (association list in insertion order). -/
def lookupField (fields : List (String × JSONValue)) (f : String) : Option JSONValue :=
  fields.lookup f

/-- json[f] = v: replace the value stored under key f. -/
def setField (fields : List (String × JSONValue)) (f : String) (v : JSONValue) :
    List (String × JSONValue) :=
  fields.map (fun p => if p.1 == f then (p.1, v) else p)

/-- delete json[f] for every f in names. -/
def removeFields (fields : List (String × JSONValue)) (names : List String) :
    List (String × JSONValue) :=
  fields.filter (fun p => !(names.contains p.1))

/-- The recursive child-validation callback: this.validateUnknownElement with
the current this.errors in first position. -/
abbrev Step := List VError → JSONValue → ConfigElement → Res JSONValue

/--
The loop of ConfigParser.validateObject over the declared-and-present fields
(the jsonFields that allFields includes): each field value is validated
against the matching child element and the mutation performed on it is written
back into the object.  A field whose child lookup is undefined is a silent
no-op, exactly like validateUnknownElement on an undefined element (all
instanceof checks fail).
-/
def objectFieldsLoop (step : Step) (errsCur : List VError) (ce : ConfigElement)
    (objFields : List (String × JSONValue)) :
    List String → Res (List (String × JSONValue))
  | [] => pureRes objFields
  | f :: rest =>
    match ce.getChild f with
    | none => objectFieldsLoop step errsCur ce objFields rest
    | some childCe =>
        bindRes (step errsCur ((lookupField objFields f).getD .null) childCe)
          (fun d el =>
            objectFieldsLoop step (errsCur ++ d) ce (setField objFields f el) rest)

/--
ConfigParser.validateObject.  Null and type checks, the single pass that
partitions the object keys, one MissingRequiredFieldError per required-but-
absent name, recursive validation of the declared-and-present fields, then the
two prune steps: unknown-element pruning only when pruneUnknownElements is set
and this.errors is empty at this moment, dollar pruning whenever
pruneDollarElements is set.
-/
def validateObjectG (step : Step) (flags : ParserFlags) (errs0 : List VError)
    (inputObject : JSONValue) (ce : ConfigElement) : Res JSONValue :=
  match inputObject with
  | .null =>
      if ce.canBeNullE then pureRes .null
      else bindRes (addError flags (.nullValue ce.getName)) (fun _ _ => pureRes .null)
  | v =>
      if !(ce.isCorrectType v) then
        bindRes (addError flags (.invalidType (jsTypeof v) "object"))
          (fun _ _ => pureRes v)
      else
        match v with
        | .obj fields =>
            let requiredFields := ce.getRequiredChildren
            let allFields := ce.getChildFieldNames
            let jsonFields := fields.map (fun p => p.1)
            let requiredFieldsFound := jsonFields.filter (fun f => requiredFields.contains f)
            let dollarFields := jsonFields.filter startsWithDollar
            let extraFields := jsonFields.filter (fun f => !(allFields.contains f))
            bindRes
              (addErrorsList flags
                ((requiredFields.filter (fun f => !(requiredFieldsFound.contains f))).map
                  (fun f => .missingRequiredField f)))
              (fun d1 _ =>
                bindRes
                  (objectFieldsLoop step (errs0 ++ d1) ce fields
                    (jsonFields.filter (fun f => allFields.contains f)))
                  (fun d2 fields2 =>
                    let fields3 :=
                      if flags.pruneUnknownElements && (errs0 ++ d1 ++ d2).isEmpty
                      then removeFields fields2 extraFields
                      else fields2
                    let fields4 :=
                      if flags.pruneDollarElements
                      then removeFields fields3 dollarFields
                      else fields3
                    pureRes (.obj fields4)))
        | v => pureRes v

/--
The loop of ConfigParser.validateArray in ordered-tuple mode
(oe.forEach with the entry at the same index): a null entry
is one NullArrayElementError when nulls are disallowed and is left as is,
any other entry is validated recursively against its positional element.
-/
def orderedLoop (step : Step) (flags : ParserFlags) (errsCur : List VError)
    (allowNull : Bool) : List (ConfigElement × JSONValue) → Res (List JSONValue)
  | [] => pureRes []
  | (cce, el) :: rest =>
    match el with
    | .null =>
        bindRes
          (if !allowNull then addError flags .nullArrayElement else pureRes ())
          (fun d _ =>
            bindRes (orderedLoop step flags (errsCur ++ d) allowNull rest)
              (fun _ rest2 => pureRes (JSONValue.null :: rest2)))
    | el =>
        bindRes (step errsCur el cce)
          (fun d el2 =>
            bindRes (orderedLoop step flags (errsCur ++ d) allowNull rest)
              (fun _ rest2 => pureRes (el2 :: rest2)))

/--
The loop of ConfigParser.validateArray in typed-set mode (array.forEach):
null entries as in ordered mode; other entries are tagged with typeof, with
arrays re-tagged from "object" to "array", then either rejected with one
InvalidArrayElementTypeError when the tag has no slot, or validated against
the slot element.
-/
def typedSetLoop (step : Step) (flags : ParserFlags) (errsCur : List VError)
    (ce : ConfigElement) : List JSONValue → Res (List JSONValue)
  | [] => pureRes []
  | el :: rest =>
    match el with
    | .null =>
        bindRes
          (if !(ce.allowNullElements) then addError flags .nullArrayElement else pureRes ())
          (fun d _ =>
            bindRes (typedSetLoop step flags (errsCur ++ d) ce rest)
              (fun _ rest2 => pureRes (JSONValue.null :: rest2)))
    | el =>
        let elemType :=
          if jsTypeof el == "object" && isArrayV el then "array" else jsTypeof el
        if !(ce.isValidElementType elemType) then
          bindRes (addError flags (.invalidArrayElementType elemType))
            (fun d _ =>
              bindRes (typedSetLoop step flags (errsCur ++ d) ce rest)
                (fun _ rest2 => pureRes (el :: rest2)))
        else
          match ce.getElementConfig elemType with
          | some cce =>
              bindRes (step errsCur el cce)
                (fun d el2 =>
                  bindRes (typedSetLoop step flags (errsCur ++ d) ce rest)
                    (fun _ rest2 => pureRes (el2 :: rest2)))
          | none =>
              bindRes (typedSetLoop step flags errsCur ce rest)
                (fun _ rest2 => pureRes (el :: rest2))

/--
ConfigParser.validateArray.  Null and type checks; in Any mode one aggregate
NullArrayElementError when some entry is null and nulls are disallowed; in
ordered-tuple mode a length mismatch is one InvalidArrayContentsError and
stops, otherwise the positional loop runs; in typed-set mode the per-entry
loop runs.
-/
def validateArrayG (step : Step) (flags : ParserFlags) (errs0 : List VError)
    (inputArray : JSONValue) (ce : ConfigElement) : Res JSONValue :=
  match inputArray with
  | .null =>
      if ce.canBeNullE then pureRes .null
      else bindRes (addError flags (.nullValue ce.getName)) (fun _ _ => pureRes .null)
  | v =>
      if !(ce.isCorrectType v) then
        bindRes (addError flags (.invalidType (jsTypeof v) "array"))
          (fun _ _ => pureRes v)
      else
        match v with
        | .arr array =>
            if ce.allowAnyElement then
              if !(ce.allowNullElements) && (array.filter isNullValue).length > 0 then
                bindRes (addError flags .nullArrayElement)
                  (fun _ _ => pureRes (.arr array))
              else pureRes (.arr array)
            else if (ce.getOrderedElements).length > 0 then
              let oe := ce.getOrderedElements
              if oe.length ≠ array.length then
                bindRes
                  (addError flags (.invalidArrayContents
                    "Array and ordered elements list have unequal lengths"))
                  (fun _ _ => pureRes (.arr array))
              else
                bindRes (orderedLoop step flags errs0 ce.allowNullElements (oe.zip array))
                  (fun _ array2 => pureRes (.arr array2))
            else
              bindRes (typedSetLoop step flags errs0 ce array)
                (fun _ array2 => pureRes (.arr array2))
        | v => pureRes v

/-- ConfigParser.validateBoolean: null check then exact type check. -/
def validateBoolean (flags : ParserFlags) (inputBool : JSONValue)
    (ce : ConfigElement) : Res Unit :=
  match inputBool with
  | .null =>
      if ce.canBeNullE then pureRes ()
      else addError flags (.nullValue ce.getName)
  | v =>
      if !(ce.isCorrectType v) then
        addError flags (.invalidType (jsTypeof v) "boolean")
      else pureRes ()

/-- ConfigParser.validateNumber: null check, type check, then checkRange
against getMinValue and getMaxValue. -/
def validateNumber (flags : ParserFlags) (inputNumber : JSONValue)
    (ce : ConfigElement) : Res Unit :=
  match inputNumber with
  | .null =>
      if ce.canBeNullE then pureRes ()
      else addError flags (.nullValue ce.getName)
  | v =>
      if !(ce.isCorrectType v) then
        addError flags (.invalidType (jsTypeof v) "number")
      else
        match v with
        | .num n => checkRange flags n ce.getMinValue ce.getMaxValue
        | _ => pureRes ()

/-- ConfigParser.validateString: null check, type check, then the valid-values
enumeration check (non-empty list and value not a member is one
InvalidValueError and returns, skipping the length checks), else checkRange on
the string length against getMinLength and getMaxLength. -/
def validateString (flags : ParserFlags) (inputString : JSONValue)
    (ce : ConfigElement) : Res Unit :=
  match inputString with
  | .null =>
      if ce.canBeNullE then pureRes ()
      else addError flags (.nullValue ce.getName)
  | v =>
      if !(ce.isCorrectType v) then
        addError flags (.invalidType (jsTypeof v) "string")
      else
        match v with
        | .str s =>
            let validValues := ce.getValidValues
            if validValues.length > 0 && !(validValues.contains s) then
              addError flags (.invalidValue (invalidEnumMsg s validValues))
            else
              checkRange flags (s.length : Int) ce.getMinLength ce.getMaxLength
        | _ => pureRes ()

/--
ConfigParser.validateUnknownElement: dispatch on the (runtime) variant of the
config element, as the instanceof chain of the source.  The fuel parameter
bounds the recursion depth through the schema tree; with fuel 0 the call is a
no-op returning the value unchanged, so any fuel above the schema depth gives
the source behaviour (the source recursion always descends into a strictly
smaller element).
-/
def validateUnknownElement : Nat → ParserFlags → List VError → JSONValue →
    ConfigElement → Res JSONValue
  | 0, _, _, elem, _ => pureRes elem
  | Nat.succ fuel, flags, errs0, elem, ce =>
    match ce with
    | .objectE _ _ _ _ =>
        validateObjectG
          (fun e el c => validateUnknownElement fuel flags e el c) flags errs0 elem ce
    | .arrayE _ _ _ _ _ _ =>
        validateArrayG
          (fun e el c => validateUnknownElement fuel flags e el c) flags errs0 elem ce
    | .booleanE _ _ _ _ =>
        bindRes (validateBoolean flags elem ce) (fun _ _ => pureRes elem)
    | .numberE _ _ _ _ _ _ =>
        bindRes (validateNumber flags elem ce) (fun _ _ => pureRes elem)
    | .stringE _ _ _ _ _ _ _ =>
        bindRes (validateString flags elem ce) (fun _ _ => pureRes elem)

/--
ConfigParser.validate: root isCorrectType check, the typeof check for a
structural root, then dispatch to validateObject or validateArray on the
variant of this.root (an array root additionally re-checks Array.isArray);
a primitive root element is an InvalidRootTypeError.
-/
def validate (fuel : Nat) (flags : ParserFlags) (root : ConfigElement)
    (errs0 : List VError) (json : JSONValue) : Res JSONValue :=
  if !(root.isCorrectType json) then
    bindRes (addError flags (.invalidRootType "Root element has incorrect type"))
      (fun _ _ => pureRes json)
  else if !(jsTypeof json == "object") then
    bindRes
      (addError flags
        (.invalidRootType "Parsed JSON string should have object as root type"))
      (fun _ _ => pureRes json)
  else
    match root with
    | .objectE _ _ _ _ =>
        validateObjectG (fun e el c => validateUnknownElement fuel flags e el c)
          flags errs0 json root
    | .arrayE _ _ _ _ _ _ =>
        if !(isArrayV json) then
          bindRes
            (addError flags (.invalidRootType "Expected root element to be an array"))
            (fun _ _ => pureRes json)
        else
          validateArrayG (fun e el c => validateUnknownElement fuel flags e el c)
            flags errs0 json root
    | _ =>
        bindRes
          (addError flags
            (.invalidRootType "Root configuration element has incorrect type"))
          (fun _ _ => pureRes json)

/-- Outcome of ConfigParser.parse: the decoded (possibly pruned) tree, the
specific error thrown by addError under throwOnFirstError, or the generic
ConfigParseFailureError. -/
inductive ParseResult where
  | ok (v : JSONValue)
  | threwFirst (e : VError)
  | parseFailure
deriving Repr

/--
ConfigParser.parse on an already decoded value (JSON.parse is the external
decoder and out of scope): run validate, then throw ConfigParseFailureError
when this.errors is non-empty, else return the tree.  `errs0` is the content
of this.errors when the call starts (the instance never clears the list); the
second component is this.errors when the call finishes.
-/
def parse (fuel : Nat) (flags : ParserFlags) (root : ConfigElement)
    (errs0 : List VError) (json : JSONValue) : ParseResult × List VError :=
  match validate fuel flags root errs0 json with
  | .error (e, d) => (.threwFirst e, errs0 ++ d)
  | .ok (d, json2) =>
      if (errs0 ++ d).isEmpty then (.ok json2, errs0 ++ d)
      else (.parseFailure, errs0 ++ d)

/-- ConfigParser.getErrors returns a fresh copy of this.errors; see the store
model further below for the aliasing claim. -/
def getErrorsCopy (errs : List VError) : List VError :=
  errs ++ []

/-- Construction-time errors of the elements module: the
InvalidConfigurationElementError of the ArrayElement shape guards and the
ConfigElementBuilderError subclasses. -/
inductive BuildErr where
  | invalidConfigurationElement (msg : String)
  | builderMissingOrInvalidOfType (ofTypeMethod actualMethod : String)
  | builderElementTypeUndetermined
  | builderElementTypeDetermined
  | builderElementTypeNotPrimitive
  | builderArrayElementType (expectedInstance : String)
deriving Repr, DecidableEq

/-- Map.set: overwrite the entry when the key exists, else append (JS Map
keeps insertion order). -/
def mapSet (m : List (String × ConfigElement)) (k : String) (v : ConfigElement) :
    List (String × ConfigElement) :=
  if (m.lookup k).isSome then m.map (fun p => if p.1 == k then (p.1, v) else p)
  else m ++ [(k, v)]

/-- new ObjectElement(). -/
def newObjectElement : ConfigElement := .objectE none true false []
/-- new ArrayElement(). -/
def newArrayElement : ConfigElement := .arrayE none true false false [] []
/-- new BooleanElement(). -/
def newBooleanElement : ConfigElement := .booleanE none true false none
/-- new NumberElement(). -/
def newNumberElement : ConfigElement := .numberE none true false none none none
/-- new StringElement() (the validValues field initializer is the empty
array). -/
def newStringElement : ConfigElement := .stringE none true false none none none []

namespace ConfigElement

/-- ArrayElement.checkOrderedElementsEmpty, inlined by the allow functions:
true when the guard would throw. -/
def orderedElementsNonEmpty (ce : ConfigElement) : Bool :=
  (ce.getOrderedElements).length > 0

/-- Shared body of the five ArrayElement.allowXyzElements methods: throw
InvalidConfigurationElementError when orderedElements is already populated,
else set the slot for the tag, defaulting a missing argument to a fresh
element of that type. -/
def allowTaggedElements (ce : ConfigElement) (tag : String)
    (arg : Option ConfigElement) (defaultElem : ConfigElement) :
    Except BuildErr ConfigElement :=
  match ce with
  | arrayE n r cn an els oe =>
      if oe.length > 0 then
        .error (.invalidConfigurationElement
          "ArrayElement already expects ordered element validation")
      else
        .ok (arrayE n r cn an (mapSet els tag (arg.getD defaultElem)) oe)
  | e => .ok e

/-- ArrayElement.allowNumberElements. -/
def allowNumberElements (ce : ConfigElement) (arg : Option ConfigElement) :
    Except BuildErr ConfigElement :=
  allowTaggedElements ce "number" arg newNumberElement

/-- ArrayElement.allowBooleanElements. -/
def allowBooleanElements (ce : ConfigElement) (arg : Option ConfigElement) :
    Except BuildErr ConfigElement :=
  allowTaggedElements ce "boolean" arg newBooleanElement

/-- ArrayElement.allowStringElements. -/
def allowStringElements (ce : ConfigElement) (arg : Option ConfigElement) :
    Except BuildErr ConfigElement :=
  allowTaggedElements ce "string" arg newStringElement

/-- ArrayElement.allowObjectElements. -/
def allowObjectElements (ce : ConfigElement) (arg : Option ConfigElement) :
    Except BuildErr ConfigElement :=
  allowTaggedElements ce "object" arg newObjectElement

/-- ArrayElement.allowArrayElements. -/
def allowArrayElements (ce : ConfigElement) (arg : Option ConfigElement) :
    Except BuildErr ConfigElement :=
  allowTaggedElements ce "array" arg newArrayElement

/-- ArrayElement.setOrderedElements: throw InvalidConfigurationElementError
when the typed-set elements map is already populated, else store the list. -/
def setOrderedElements (ce : ConfigElement) (orderedElements : List ConfigElement) :
    Except BuildErr ConfigElement :=
  match ce with
  | arrayE n r cn an els _ =>
      if els.length > 0 then
        .error (.invalidConfigurationElement
          "ArrayElement already expects allowed element validation")
      else .ok (arrayE n r cn an els orderedElements)
  | e => .ok e

/-- ArrayElement.setAllowNullElements. -/
def setAllowNullElements (ce : ConfigElement) : ConfigElement :=
  match ce with
  | arrayE n r cn _ els oe => arrayE n r cn true els oe
  | e => e

/-- ConfigElement.setCanBeNull. -/
def setCanBeNull (ce : ConfigElement) (b : Bool) : ConfigElement :=
  match ce with
  | objectE n r _ ch => objectE n r b ch
  | arrayE n r _ an els oe => arrayE n r b an els oe
  | booleanE n r _ dv => booleanE n r b dv
  | numberE n r _ dv mn mx => numberE n r b dv mn mx
  | stringE n r _ dv mn mx vv => stringE n r b dv mn mx vv

/-- ConfigElement.setIsRequired. -/
def setIsRequired (ce : ConfigElement) (b : Bool) : ConfigElement :=
  match ce with
  | objectE n _ c ch => objectE n b c ch
  | arrayE n _ c an els oe => arrayE n b c an els oe
  | booleanE n _ c dv => booleanE n b c dv
  | numberE n _ c dv mn mx => numberE n b c dv mn mx
  | stringE n _ c dv mn mx vv => stringE n b c dv mn mx vv

/-- ConfigElement.setName. -/
def setName (ce : ConfigElement) (nm : String) : ConfigElement :=
  match ce with
  | objectE _ r c ch => objectE (some nm) r c ch
  | arrayE _ r c an els oe => arrayE (some nm) r c an els oe
  | booleanE _ r c dv => booleanE (some nm) r c dv
  | numberE _ r c dv mn mx => numberE (some nm) r c dv mn mx
  | stringE _ r c dv mn mx vv => stringE (some nm) r c dv mn mx vv

/-- PrimitiveElement.setDefaultValue (no-op on non-primitive variants, which
never reach it). -/
def setDefaultValue (ce : ConfigElement) (v : PrimitiveJSONType) : ConfigElement :=
  match ce with
  | booleanE n r c _ => booleanE n r c (some v)
  | numberE n r c _ mn mx => numberE n r c (some v) mn mx
  | stringE n r c _ mn mx vv => stringE n r c (some v) mn mx vv
  | e => e

/-- NumberElement.setMinValue. -/
def setMinValue (ce : ConfigElement) (m : Int) : ConfigElement :=
  match ce with
  | numberE n r c dv _ mx => numberE n r c dv (some m) mx
  | e => e

/-- NumberElement.setMaxValue. -/
def setMaxValue (ce : ConfigElement) (m : Int) : ConfigElement :=
  match ce with
  | numberE n r c dv mn _ => numberE n r c dv mn (some m)
  | e => e

/-- StringElement.setMinLength. -/
def setMinLength (ce : ConfigElement) (m : Int) : ConfigElement :=
  match ce with
  | stringE n r c dv _ mx vv => stringE n r c dv (some m) mx vv
  | e => e

/-- StringElement.setMaxLength. -/
def setMaxLength (ce : ConfigElement) (m : Int) : ConfigElement :=
  match ce with
  | stringE n r c dv mn _ vv => stringE n r c dv mn (some m) vv
  | e => e

/-- ObjectElement.addChild: children.set(child.getName(), child).  A child
without a name would be keyed by undefined in the JS Map; no claim exercises
that corner and it is skipped here. -/
def addChild (ce : ConfigElement) (child : ConfigElement) : ConfigElement :=
  match ce with
  | objectE n r c ch =>
      match child.getName with
      | some nm => objectE n r c (mapSet ch nm child)
      | none => objectE n r c ch
  | e => e

/-- ObjectElement.addChildren. -/
def addChildren (ce : ConfigElement) (children : List ConfigElement) : ConfigElement :=
  children.foldl addChild ce

end ConfigElement

/-- The ElementType enum of the elements module (values 1 to 5, all truthy
as JS numbers). -/
inductive ElementType where
  | NUMBER | BOOLEAN | STRING | ARRAY | OBJECT
deriving Repr, DecidableEq

/-- The isPrimitive helper on the ElementType enum. -/
def ElementType.isPrimitiveT : ElementType → Bool
  | .NUMBER => true
  | .BOOLEAN => true
  | .STRING => true
  | _ => false

/-- ConfigElementBuilder state: the five per-kind element slots (undefined
until the matching ofTypeXyz call) and the type tag (undefined until any
ofTypeXyz call; every enum value is truthy). -/
structure ConfigElementBuilder where
  numberElement : Option ConfigElement := none
  booleanElement : Option ConfigElement := none
  stringElement : Option ConfigElement := none
  arrayElement : Option ConfigElement := none
  objectElement : Option ConfigElement := none
  type : Option ElementType := none
deriving Repr

/-- new ConfigElementBuilder(). -/
def newBuilder : ConfigElementBuilder := {}

namespace ConfigElementBuilder

/-- The private slot selector of the builder (undefined when the slot was
never populated). -/
def getSlot (b : ConfigElementBuilder) : ElementType → Option ConfigElement
  | .OBJECT => b.objectElement
  | .ARRAY => b.arrayElement
  | .BOOLEAN => b.booleanElement
  | .NUMBER => b.numberElement
  | .STRING => b.stringElement

/-- Write a slot back after mutating its element. -/
def setSlot (b : ConfigElementBuilder) : ElementType → Option ConfigElement →
    ConfigElementBuilder
  | .OBJECT, e => { b with objectElement := e }
  | .ARRAY, e => { b with arrayElement := e }
  | .BOOLEAN, e => { b with booleanElement := e }
  | .NUMBER, e => { b with numberElement := e }
  | .STRING, e => { b with stringElement := e }

/-- ConfigElementBuilder.build: getConfigElement throws
BuilderElementTypeUndeterminedError when no ofTypeXyz call was made, else
returns the element under construction. -/
def build (b : ConfigElementBuilder) : Except BuildErr (Option ConfigElement) :=
  match b.type with
  | none => .error .builderElementTypeUndetermined
  | some t => .ok (b.getSlot t)

/-- Shared body of the five ofTypeXyz methods: throw
BuilderElementTypeDeterminedError when the type is already fixed, else fix it
and create the fresh element for its slot. -/
def ofType (b : ConfigElementBuilder) (t : ElementType) (freshElem : ConfigElement) :
    Except BuildErr ConfigElementBuilder :=
  if b.type.isSome then .error .builderElementTypeDetermined
  else .ok (setSlot { b with type := some t } t (some freshElem))

/-- ConfigElementBuilder.ofTypeObject. -/
def ofTypeObject (b : ConfigElementBuilder) : Except BuildErr ConfigElementBuilder :=
  b.ofType .OBJECT newObjectElement

/-- ConfigElementBuilder.ofTypeArray. -/
def ofTypeArray (b : ConfigElementBuilder) : Except BuildErr ConfigElementBuilder :=
  b.ofType .ARRAY newArrayElement

/-- ConfigElementBuilder.ofTypeBoolean. -/
def ofTypeBoolean (b : ConfigElementBuilder) : Except BuildErr ConfigElementBuilder :=
  b.ofType .BOOLEAN newBooleanElement

/-- ConfigElementBuilder.ofTypeNumber. -/
def ofTypeNumber (b : ConfigElementBuilder) : Except BuildErr ConfigElementBuilder :=
  b.ofType .NUMBER newNumberElement

/-- ConfigElementBuilder.ofTypeString. -/
def ofTypeString (b : ConfigElementBuilder) : Except BuildErr ConfigElementBuilder :=
  b.ofType .STRING newStringElement

/-- ConfigElementBuilder.withMinLength: throws
BuilderMissingOrInvalidOfTypeError unless ofTypeString already populated the
string slot. -/
def withMinLength (b : ConfigElementBuilder) (min : Int) :
    Except BuildErr ConfigElementBuilder :=
  match b.stringElement with
  | none => .error (.builderMissingOrInvalidOfType "ofTypeString" "withMinLength")
  | some se => .ok { b with stringElement := some (se.setMinLength min) }

/-- ConfigElementBuilder.withMaxLength. -/
def withMaxLength (b : ConfigElementBuilder) (max : Int) :
    Except BuildErr ConfigElementBuilder :=
  match b.stringElement with
  | none => .error (.builderMissingOrInvalidOfType "ofTypeString" "withMaxLength")
  | some se => .ok { b with stringElement := some (se.setMaxLength max) }

/-- ConfigElementBuilder.withValidStringValues: the string slot must be
populated by a preceding ofTypeString, then the values are added through
StringElement.addValidValues. -/
def withValidStringValues (b : ConfigElementBuilder) (values : List String) :
    Except BuildErr ConfigElementBuilder :=
  match b.stringElement with
  | none => .error (.builderMissingOrInvalidOfType "ofTypeString" "withValidStringValues")
  | some se => .ok { b with stringElement := some (se.addValidValues values) }

/-- ConfigElementBuilder.withMinValue. -/
def withMinValue (b : ConfigElementBuilder) (min : Int) :
    Except BuildErr ConfigElementBuilder :=
  match b.numberElement with
  | none => .error (.builderMissingOrInvalidOfType "ofTypeNumber" "withMinValue")
  | some ne => .ok { b with numberElement := some (ne.setMinValue min) }

/-- ConfigElementBuilder.withMaxValue. -/
def withMaxValue (b : ConfigElementBuilder) (max : Int) :
    Except BuildErr ConfigElementBuilder :=
  match b.numberElement with
  | none => .error (.builderMissingOrInvalidOfType "ofTypeNumber" "withMaxValue")
  | some ne => .ok { b with numberElement := some (ne.setMaxValue max) }

/-- ConfigElementBuilder.withChildElements. -/
def withChildElements (b : ConfigElementBuilder) (children : List ConfigElement) :
    Except BuildErr ConfigElementBuilder :=
  match b.objectElement with
  | none => .error (.builderMissingOrInvalidOfType "ofTypeObject" "withChildElements")
  | some oe => .ok { b with objectElement := some (oe.addChildren children) }

/-- ConfigElementBuilder.withNumberArrayElements: the array slot must be
populated, a supplied element must be a NumberElement instance, then
ArrayElement.allowNumberElements runs (which can itself throw the
shape-exclusivity error). -/
def withNumberArrayElements (b : ConfigElementBuilder) (ce : Option ConfigElement) :
    Except BuildErr ConfigElementBuilder :=
  match b.arrayElement with
  | none => .error (.builderMissingOrInvalidOfType "ofTypeArray" "withNumberArrayElements")
  | some ae =>
      if (match ce with
          | some e => !(match e with | .numberE _ _ _ _ _ _ => true | _ => false)
          | none => false) then
        .error (.builderArrayElementType "NumberElement")
      else
        (ae.allowNumberElements ce).map (fun ae2 => { b with arrayElement := some ae2 })

/-- ConfigElementBuilder.withStringArrayElements. -/
def withStringArrayElements (b : ConfigElementBuilder) (ce : Option ConfigElement) :
    Except BuildErr ConfigElementBuilder :=
  match b.arrayElement with
  | none => .error (.builderMissingOrInvalidOfType "ofTypeArray" "withStringElement")
  | some ae =>
      if (match ce with
          | some e => !(match e with | .stringE _ _ _ _ _ _ _ => true | _ => false)
          | none => false) then
        .error (.builderArrayElementType "StringElement")
      else
        (ae.allowStringElements ce).map (fun ae2 => { b with arrayElement := some ae2 })

/-- ConfigElementBuilder.withBooleanArrayElements. -/
def withBooleanArrayElements (b : ConfigElementBuilder) (ce : Option ConfigElement) :
    Except BuildErr ConfigElementBuilder :=
  match b.arrayElement with
  | none => .error (.builderMissingOrInvalidOfType "ofTypeArray" "withBooleanArrayElements")
  | some ae =>
      if (match ce with
          | some e => !(match e with | .booleanE _ _ _ _ => true | _ => false)
          | none => false) then
        .error (.builderArrayElementType "BooleanElement")
      else
        (ae.allowBooleanElements ce).map (fun ae2 => { b with arrayElement := some ae2 })

/-- ConfigElementBuilder.withArrayArrayElements. -/
def withArrayArrayElements (b : ConfigElementBuilder) (ce : Option ConfigElement) :
    Except BuildErr ConfigElementBuilder :=
  match b.arrayElement with
  | none => .error (.builderMissingOrInvalidOfType "ofTypeArray" "withArrayArrayElements")
  | some ae =>
      if (match ce with
          | some e => !(match e with | .arrayE _ _ _ _ _ _ => true | _ => false)
          | none => false) then
        .error (.builderArrayElementType "ArrayElement")
      else
        (ae.allowArrayElements ce).map (fun ae2 => { b with arrayElement := some ae2 })

/-- ConfigElementBuilder.withObjectArrayElements. -/
def withObjectArrayElements (b : ConfigElementBuilder) (ce : Option ConfigElement) :
    Except BuildErr ConfigElementBuilder :=
  match b.arrayElement with
  | none => .error (.builderMissingOrInvalidOfType "ofTypeArray" "withObjectArrayElements")
  | some ae =>
      if (match ce with
          | some e => !(match e with | .objectE _ _ _ _ => true | _ => false)
          | none => false) then
        .error (.builderArrayElementType "ObjectElement")
      else
        (ae.allowObjectElements ce).map (fun ae2 => { b with arrayElement := some ae2 })

/-- ConfigElementBuilder.withArrayElementList. -/
def withArrayElementList (b : ConfigElementBuilder) (elementList : List ConfigElement) :
    Except BuildErr ConfigElementBuilder :=
  match b.arrayElement with
  | none => .error (.builderMissingOrInvalidOfType "ofTypeArray" "withArrayElementList")
  | some ae =>
      (ae.setOrderedElements elementList).map (fun ae2 => { b with arrayElement := some ae2 })

/-- ConfigElementBuilder.withAllowArrayNullElements. -/
def withAllowArrayNullElements (b : ConfigElementBuilder) :
    Except BuildErr ConfigElementBuilder :=
  match b.arrayElement with
  | none => .error (.builderMissingOrInvalidOfType "ofTypeArray" "withAllowArrayNullElements")
  | some ae => .ok { b with arrayElement := some ae.setAllowNullElements }

/-- ConfigElementBuilder.canBeNull (getConfigElement-based). -/
def canBeNullB (b : ConfigElementBuilder) : Except BuildErr ConfigElementBuilder :=
  match b.type with
  | none => .error .builderElementTypeUndetermined
  | some t => .ok (b.setSlot t ((b.getSlot t).map (fun e => e.setCanBeNull true)))

/-- ConfigElementBuilder.isOptional. -/
def isOptional (b : ConfigElementBuilder) : Except BuildErr ConfigElementBuilder :=
  match b.type with
  | none => .error .builderElementTypeUndetermined
  | some t => .ok (b.setSlot t ((b.getSlot t).map (fun e => e.setIsRequired false)))

/-- ConfigElementBuilder.withName. -/
def withName (b : ConfigElementBuilder) (nm : String) :
    Except BuildErr ConfigElementBuilder :=
  match b.type with
  | none => .error .builderElementTypeUndetermined
  | some t => .ok (b.setSlot t ((b.getSlot t).map (fun e => e.setName nm)))

/-- ConfigElementBuilder.withDefaultValue (getPrimitiveConfigElement throws
BuilderElementTypeNotPrimitiveError for the other kinds; the isPrimitive check
on an undefined type is also falsy, giving the same error). -/
def withDefaultValue (b : ConfigElementBuilder) (v : PrimitiveJSONType) :
    Except BuildErr ConfigElementBuilder :=
  match b.type with
  | none => .error .builderElementTypeNotPrimitive
  | some t =>
      if !(t.isPrimitiveT) then .error .builderElementTypeNotPrimitive
      else .ok (b.setSlot t ((b.getSlot t).map (fun e => e.setDefaultValue v)))

end ConfigElementBuilder

/--
Reference-semantics model for getErrors: a store of error arrays, a reference
being an index.  A ConfigParser instance holds a reference to its errors
array; getErrors allocates a fresh array holding a copy of the contents
(the spread `return this.errors.slice-like copy`) and returns its reference.
-/
structure ErrStore where
  arrays : List (List VError)
deriving Repr

/-- Dereference an array in the store. -/
def readArr (st : ErrStore) (r : Nat) : List VError :=
  (st.arrays.getD r [])

/-- In-place mutation of an array in the store (covers clearing, appending or
any other rewrite of the contents). -/
def writeArr (st : ErrStore) (r : Nat) (v : List VError) : ErrStore :=
  ⟨st.arrays.set r v⟩

/-- ConfigParser.getErrors under the store model: allocate a fresh array with
the same contents and hand its reference out. -/
def getErrorsRef (st : ErrStore) (parserErrs : Nat) : Nat × ErrStore :=
  (st.arrays.length, ⟨st.arrays ++ [readArr st parserErrs]⟩)

/-- Number of NullArrayElementError entries in an error delta. -/
def countNullArrayErrors (d : List VError) : Nat :=
  (d.filter (fun e => e = VError.nullArrayElement)).length

/-- Shape of a result as a function of throwOnFirstError: with the flag the
run either appends nothing or throws its first and only recorded error; without
it the run always completes with some delta. -/
def GoodRes (t : Bool) {α : Type} (r : Res α) : Prop :=
  match t with
  | true => (∃ a, r = .ok ([], a)) ∨ (∃ e, r = .error (e, [e]))
  | false => ∃ d a, r = .ok (d, a)

/-- Effective flags of a parser built with no options. -/
def flagsDefault : ParserFlags := mkParserFlags none

/-- Flags with throwOnFirstError switched on. -/
def flagsThrow : ParserFlags :=
  { throwOnFirstError := true, pruneUnknownElements := false,
    pruneDollarElements := true }

/-- Accumulating flags with unknown-element pruning switched on. -/
def flagsPrune : ParserFlags :=
  { throwOnFirstError := false, pruneUnknownElements := true,
    pruneDollarElements := true }

/-- Schema used by the pruning counterexample: a root object with an object
child a (no declared grandchildren) and a required number child b. -/
def rootPrune : ConfigElement :=
  .objectE none true false
    [("a", .objectE (some "a") true false []),
     ("b", .numberE (some "b") true false none none none)]

/-- Fields of the pruning counterexample input: branch a is valid but carries
the undeclared field extra; field b has the wrong type and is validated after
a. -/
def inputPruneFields : List (String × JSONValue) :=
  [("a", .obj [("extra", .num 1)]), ("b", .str "no")]

/-- Input of the pruning counterexample. -/
def inputPrune : JSONValue := .obj inputPruneFields

/-- Fields of the tree after the pruning counterexample run: the undeclared
field extra is gone from branch a although the run recorded an error on b. -/
def outPruneFields : List (String × JSONValue) :=
  [("a", .obj []), ("b", .str "no")]

/-- The error delta of the pruning counterexample run. -/
def deltaPrune : List VError := [VError.invalidType "string" "number"]

/-- Schema of the stale-error counterexample: one required number field x. -/
def rootNum : ConfigElement :=
  .objectE none true false [("x", .numberE (some "x") true false none none none)]

/-- A number element whose maxValue bound is exactly 0. -/
def ceNumMaxZero : ConfigElement :=
  .numberE (some "x") true false none none (some 0)

/-- A string element whose maxLength bound is exactly 0. -/
def ceStrMaxZero : ConfigElement :=
  .stringE (some "s") true false none none (some 0) []

/-- A string element with a valid-values enumeration and a minLength bound. -/
def ceEnumMin : ConfigElement :=
  .stringE (some "s") true false none (some 5) none ["ab"]

/-- The structural tag computed for a non-null array entry by the typed-set
branch of validateArray: typeof, with arrays re-tagged from object to
array. -/
def elemTypeOf (el : JSONValue) : String :=
  if jsTypeof el == "object" && isArrayV el then "array" else jsTypeof el

end ConfigParserTs

namespace ConfigParserTs

/-! Helper lemmas about the result combinators. -/

theorem bindRes_ok_iff {α β : Type} (r : Res α) (k : List VError → α → Res β)
    (d : List VError) (b : β) :
    bindRes r k = .ok (d, b) ↔
      ∃ d1 a d2, r = .ok (d1, a) ∧ k d1 a = .ok (d2, b) ∧ d = d1 ++ d2 := by
  constructor
  · intro h
    cases r with
    | error p => simp [bindRes] at h
    | ok p =>
        obtain ⟨d1, a⟩ := p
        cases hk : k d1 a with
        | error q => simp [bindRes, hk] at h
        | ok q =>
            obtain ⟨d2, b2⟩ := q
            simp [bindRes, hk] at h
            exact ⟨d1, a, d2, rfl, by simp [hk, h.2], by simp [h.1]⟩
  · rintro ⟨d1, a, d2, h1, h2, h3⟩
    simp [bindRes, h1, h2, h3]

theorem goodRes_pure {α : Type} (t : Bool) (a : α) : GoodRes t (pureRes a) := by
  cases t with
  | true => exact Or.inl ⟨a, rfl⟩
  | false => exact ⟨[], a, rfl⟩

theorem goodRes_addError (t : Bool) (flags : ParserFlags) (e : VError)
    (h : flags.throwOnFirstError = t) : GoodRes t (addError flags e) := by
  cases t with
  | true => exact Or.inr ⟨e, by simp [addError, h]⟩
  | false => exact ⟨[e], (), by simp [addError, h]⟩

theorem goodRes_bind {α β : Type} (t : Bool) (r : Res α)
    (k : List VError → α → Res β) (h1 : GoodRes t r)
    (h2 : ∀ d a, GoodRes t (k d a)) : GoodRes t (bindRes r k) := by
  cases t with
  | true =>
      rcases h1 with ⟨a, ha⟩ | ⟨e, he⟩
      · rcases h2 [] a with ⟨b, hb⟩ | ⟨e, he⟩
        · exact Or.inl ⟨b, by simp [bindRes, ha, hb]⟩
        · exact Or.inr ⟨e, by simp [bindRes, ha, he]⟩
      · exact Or.inr ⟨e, by simp [bindRes, he]⟩
  | false =>
      rcases h1 with ⟨d, a, ha⟩
      rcases h2 d a with ⟨d2, b, hb⟩
      exact ⟨d ++ d2, b, by simp [bindRes, ha, hb]⟩

theorem goodRes_ite (t : Bool) {α : Type} (c : Prop) [Decidable c] (r1 r2 : Res α)
    (h1 : GoodRes t r1) (h2 : GoodRes t r2) : GoodRes t (if c then r1 else r2) := by
  by_cases h : c <;> simp [h] <;> assumption

/-! Shape of every validation function as a function of throwOnFirstError. -/

theorem goodRes_addErrorsList (t : Bool) (flags : ParserFlags)
    (h : flags.throwOnFirstError = t) (es : List VError) :
    GoodRes t (addErrorsList flags es) := by
  induction es with
  | nil => exact goodRes_pure t ()
  | cons e rest ih =>
      exact goodRes_bind t _ _ (goodRes_addError t flags e h) (fun _ _ => ih)

theorem goodRes_checkRange (t : Bool) (flags : ParserFlags)
    (h : flags.throwOnFirstError = t) (n : Int) (mn mx : Option Int) :
    GoodRes t (checkRange flags n mn mx) := by
  unfold checkRange
  refine goodRes_bind t _ _ ?_ (fun d a => ?_)
  · cases mx with
    | none => exact goodRes_pure t ()
    | some m =>
        exact goodRes_ite t _ _ _ (goodRes_addError t flags _ h) (goodRes_pure t ())
  · cases mn with
    | none => exact goodRes_pure t ()
    | some m =>
        exact goodRes_ite t _ _ _ (goodRes_addError t flags _ h) (goodRes_pure t ())

theorem goodRes_validateBoolean (t : Bool) (flags : ParserFlags)
    (h : flags.throwOnFirstError = t) (v : JSONValue) (ce : ConfigElement) :
    GoodRes t (validateBoolean flags v ce) := by
  unfold validateBoolean
  cases v <;>
    first
      | exact goodRes_ite t _ _ _ (goodRes_pure t ()) (goodRes_addError t flags _ h)
      | exact goodRes_ite t _ _ _ (goodRes_addError t flags _ h) (goodRes_pure t ())

theorem goodRes_validateNumber (t : Bool) (flags : ParserFlags)
    (h : flags.throwOnFirstError = t) (v : JSONValue) (ce : ConfigElement) :
    GoodRes t (validateNumber flags v ce) := by
  unfold validateNumber
  cases v <;>
    first
      | exact goodRes_ite t _ _ _ (goodRes_pure t ()) (goodRes_addError t flags _ h)
      | exact goodRes_ite t _ _ _ (goodRes_addError t flags _ h)
          (goodRes_checkRange t flags h _ _ _)
      | exact goodRes_ite t _ _ _ (goodRes_addError t flags _ h) (goodRes_pure t ())

theorem goodRes_validateString (t : Bool) (flags : ParserFlags)
    (h : flags.throwOnFirstError = t) (v : JSONValue) (ce : ConfigElement) :
    GoodRes t (validateString flags v ce) := by
  unfold validateString
  cases v <;>
    first
      | exact goodRes_ite t _ _ _ (goodRes_pure t ()) (goodRes_addError t flags _ h)
      | exact goodRes_ite t _ _ _ (goodRes_addError t flags _ h)
          (goodRes_ite t _ _ _ (goodRes_addError t flags _ h)
            (goodRes_checkRange t flags h _ _ _))
      | exact goodRes_ite t _ _ _ (goodRes_addError t flags _ h) (goodRes_pure t ())

theorem goodRes_objectFieldsLoop (t : Bool)
    (step : Step) (hstep : ∀ e el c, GoodRes t (step e el c)) (ce : ConfigElement) :
    ∀ (flds : List String) (errsCur : List VError)
      (objFields : List (String × JSONValue)),
      GoodRes t (objectFieldsLoop step errsCur ce objFields flds) := by
  intro flds
  induction flds with
  | nil => intro errsCur objFields; exact goodRes_pure t _
  | cons f rest ih =>
      intro errsCur objFields
      unfold objectFieldsLoop
      cases ce.getChild f with
      | none => exact ih errsCur objFields
      | some childCe =>
          exact goodRes_bind t _ _ (hstep _ _ _) (fun d el => ih _ _)

theorem goodRes_orderedLoop (t : Bool) (flags : ParserFlags)
    (h : flags.throwOnFirstError = t) (step : Step)
    (hstep : ∀ e el c, GoodRes t (step e el c)) (allowNull : Bool) :
    ∀ (pairs : List (ConfigElement × JSONValue)) (errsCur : List VError),
      GoodRes t (orderedLoop step flags errsCur allowNull pairs) := by
  intro pairs
  induction pairs with
  | nil => intro errsCur; exact goodRes_pure t _
  | cons p rest ih =>
      intro errsCur
      obtain ⟨cce, el⟩ := p
      unfold orderedLoop
      cases el <;>
        first
          | exact goodRes_bind t _ _
              (goodRes_ite t _ _ _ (goodRes_addError t flags _ h) (goodRes_pure t ()))
              (fun d a => goodRes_bind t _ _ (ih _) (fun d2 a2 => goodRes_pure t _))
          | exact goodRes_bind t _ _ (hstep _ _ _)
              (fun d a => goodRes_bind t _ _ (ih _) (fun d2 a2 => goodRes_pure t _))

theorem goodRes_typedSetLoop (t : Bool) (flags : ParserFlags)
    (h : flags.throwOnFirstError = t) (step : Step)
    (hstep : ∀ e el c, GoodRes t (step e el c)) (ce : ConfigElement) :
    ∀ (xs : List JSONValue) (errsCur : List VError),
      GoodRes t (typedSetLoop step flags errsCur ce xs) := by
  intro xs
  induction xs with
  | nil => intro errsCur; exact goodRes_pure t _
  | cons el rest ih =>
      intro errsCur
      unfold typedSetLoop
      cases el
      case null =>
        exact goodRes_bind t _ _
          (goodRes_ite t _ _ _ (goodRes_addError t flags _ h) (goodRes_pure t ()))
          (fun d a => goodRes_bind t _ _ (ih _) (fun d2 a2 => goodRes_pure t _))
      all_goals
        refine goodRes_ite t _ _ _
          (goodRes_bind t _ _ (goodRes_addError t flags _ h)
            (fun d a => goodRes_bind t _ _ (ih _) (fun d2 a2 => goodRes_pure t _))) ?_
      all_goals
        cases hce : ce.getElementConfig _ with
        | none =>
            exact goodRes_bind t _ _ (ih _) (fun d2 a2 => goodRes_pure t _)
        | some cce =>
            exact goodRes_bind t _ _ (hstep _ _ _)
              (fun d a => goodRes_bind t _ _ (ih _) (fun d2 a2 => goodRes_pure t _))

theorem goodRes_validateObjectG (t : Bool) (flags : ParserFlags)
    (h : flags.throwOnFirstError = t) (step : Step)
    (hstep : ∀ e el c, GoodRes t (step e el c)) (errs0 : List VError)
    (v : JSONValue) (ce : ConfigElement) :
    GoodRes t (validateObjectG step flags errs0 v ce) := by
  unfold validateObjectG
  cases v
  case null =>
    exact goodRes_ite t _ _ _ (goodRes_pure t _)
      (goodRes_bind t _ _ (goodRes_addError t flags _ h) (fun _ _ => goodRes_pure t _))
  case obj fields =>
    refine goodRes_ite t _ _ _
      (goodRes_bind t _ _ (goodRes_addError t flags _ h)
        (fun _ _ => goodRes_pure t _)) ?_
    exact goodRes_bind t _ _ (goodRes_addErrorsList t flags h _)
      (fun d1 _ => goodRes_bind t _ _
        (goodRes_objectFieldsLoop t step hstep ce _ _ _)
        (fun d2 _ => goodRes_pure t _))
  all_goals
    exact goodRes_ite t _ _ _
      (goodRes_bind t _ _ (goodRes_addError t flags _ h)
        (fun _ _ => goodRes_pure t _))
      (goodRes_pure t _)

theorem goodRes_validateArrayG (t : Bool) (flags : ParserFlags)
    (h : flags.throwOnFirstError = t) (step : Step)
    (hstep : ∀ e el c, GoodRes t (step e el c)) (errs0 : List VError)
    (v : JSONValue) (ce : ConfigElement) :
    GoodRes t (validateArrayG step flags errs0 v ce) := by
  unfold validateArrayG
  cases v
  case null =>
    exact goodRes_ite t _ _ _ (goodRes_pure t _)
      (goodRes_bind t _ _ (goodRes_addError t flags _ h) (fun _ _ => goodRes_pure t _))
  case arr array =>
    refine goodRes_ite t _ _ _
      (goodRes_bind t _ _ (goodRes_addError t flags _ h)
        (fun _ _ => goodRes_pure t _)) ?_
    refine goodRes_ite t _ _ _ ?_ ?_
    · exact goodRes_ite t _ _ _
        (goodRes_bind t _ _ (goodRes_addError t flags _ h)
          (fun _ _ => goodRes_pure t _))
        (goodRes_pure t _)
    · refine goodRes_ite t _ _ _ ?_ ?_
      · refine goodRes_ite t _ _ _
          (goodRes_bind t _ _ (goodRes_addError t flags _ h)
            (fun _ _ => goodRes_pure t _)) ?_
        exact goodRes_bind t _ _
          (goodRes_orderedLoop t flags h step hstep _ _ _)
          (fun _ _ => goodRes_pure t _)
      · exact goodRes_bind t _ _
          (goodRes_typedSetLoop t flags h step hstep ce _ _)
          (fun _ _ => goodRes_pure t _)
  all_goals
    exact goodRes_ite t _ _ _
      (goodRes_bind t _ _ (goodRes_addError t flags _ h)
        (fun _ _ => goodRes_pure t _))
      (goodRes_pure t _)

theorem goodRes_validateUnknownElement (t : Bool) (flags : ParserFlags)
    (h : flags.throwOnFirstError = t) :
    ∀ (fuel : Nat) (errs0 : List VError) (elem : JSONValue) (ce : ConfigElement),
      GoodRes t (validateUnknownElement fuel flags errs0 elem ce) := by
  intro fuel
  induction fuel with
  | zero => intro errs0 elem ce; exact goodRes_pure t _
  | succ fuel ih =>
      intro errs0 elem ce
      unfold validateUnknownElement
      cases ce
      case objectE =>
        exact goodRes_validateObjectG t flags h _ (fun e el c => ih e el c) errs0 elem _
      case arrayE =>
        exact goodRes_validateArrayG t flags h _ (fun e el c => ih e el c) errs0 elem _
      case booleanE =>
        exact goodRes_bind t _ _ (goodRes_validateBoolean t flags h elem _)
          (fun _ _ => goodRes_pure t _)
      case numberE =>
        exact goodRes_bind t _ _ (goodRes_validateNumber t flags h elem _)
          (fun _ _ => goodRes_pure t _)
      case stringE =>
        exact goodRes_bind t _ _ (goodRes_validateString t flags h elem _)
          (fun _ _ => goodRes_pure t _)

theorem goodRes_validate (t : Bool) (fuel : Nat) (flags : ParserFlags)
    (h : flags.throwOnFirstError = t) (root : ConfigElement)
    (errs0 : List VError) (json : JSONValue) :
    GoodRes t (validate fuel flags root errs0 json) := by
  unfold validate
  refine goodRes_ite t _ _ _
    (goodRes_bind t _ _ (goodRes_addError t flags _ h)
      (fun _ _ => goodRes_pure t _)) ?_
  refine goodRes_ite t _ _ _
    (goodRes_bind t _ _ (goodRes_addError t flags _ h)
      (fun _ _ => goodRes_pure t _)) ?_
  cases root
  case objectE =>
    exact goodRes_validateObjectG t flags h _
      (fun e el c => goodRes_validateUnknownElement t flags h fuel e el c) errs0 json _
  case arrayE =>
    refine goodRes_ite t _ _ _
      (goodRes_bind t _ _ (goodRes_addError t flags _ h)
        (fun _ _ => goodRes_pure t _)) ?_
    exact goodRes_validateArrayG t flags h _
      (fun e el c => goodRes_validateUnknownElement t flags h fuel e el c) errs0 json _
  all_goals
    exact goodRes_bind t _ _ (goodRes_addError t flags _ h)
      (fun _ _ => goodRes_pure t _)

/--
C1: the claim states that a bound configured as exactly 0 is still enforced by
checkRange (a NumberElement with maxValue 0 produces an InvalidValue error for
the value 1).  Evaluating the code at that failing input: checkRange guards
each bound with JavaScript numeric truthiness, so the 0-valued bound is
treated as unset and NO error is recorded, for numbers and string lengths
alike — even though the builder does preserve the 0-valued bound on the built
element (last conjunct).  The claim is right about the intent (the spec calls
it a regression property) and the code is wrong.
-/
theorem claim_C1_zero_bound_eval :
    checkRange flagsDefault 1 none (some 0) = .ok ([], ()) ∧
    checkRange flagsDefault (-1) (some 0) none = .ok ([], ()) ∧
    validateNumber flagsDefault (.num 1) ceNumMaxZero = .ok ([], ()) ∧
    validateString flagsDefault (.str "a") ceStrMaxZero = .ok ([], ()) ∧
    ((ConfigElementBuilder.ofTypeNumber newBuilder).bind
        (fun b => b.withMaxValue 0)).map
      (fun b => b.numberElement) =
      .ok (some (.numberE none true false none none (some 0))) :=
  ⟨rfl, rfl, rfl, rfl, rfl⟩

/--
C3: the claim states every parse call starts from an empty error list, so a
later parse with valid input on the same instance succeeds.  Evaluating the
code: parse never clears this.errors, so after a first failing parse (left
conjunct, this.errors ends non-empty) the second parse of a perfectly valid
input on the same instance still throws ConfigParseFailureError (middle
conjunct), although the same input parses fine on a fresh error list (right
conjunct).  The claim matches the documented contract of parse; the code is
wrong.
-/
theorem claim_C3_stale_errors_eval :
    parse 5 flagsDefault rootNum [] (.obj [("x", .str "notnum")]) =
      (.parseFailure, [VError.invalidType "string" "number"]) ∧
    parse 5 flagsDefault rootNum [VError.invalidType "string" "number"]
        (.obj [("x", .num 5)]) =
      (.parseFailure, [VError.invalidType "string" "number"]) ∧
    parse 5 flagsDefault rootNum [] (.obj [("x", .num 5)]) =
      (.ok (.obj [("x", .num 5)]), []) :=
  ⟨rfl, rfl, rfl⟩

/--
C5 counterexample: the claim states ObjectElement.isCorrectType returns true
only for structural record values.  It also returns true for null (typeof
null is "object" and null is not an array), and null is not a record.
-/
theorem claim_C5_counterexample :
    ConfigElement.isCorrectType (.objectE none true false []) JSONValue.null = true ∧
    isRecord JSONValue.null = false :=
  ⟨rfl, rfl⟩

/--
C5 amended: ObjectElement.isCorrectType accepts exactly the values whose
runtime tag is object and which are not arrays — the records and null — and
in particular an array value never passes the Object element type check.
-/
theorem claim_C5_amended (n : Option String) (r c : Bool)
    (ch : List (String × ConfigElement)) (v : JSONValue) (xs : List JSONValue) :
    ConfigElement.isCorrectType (.objectE n r c ch) v = (isRecord v || isNullValue v) ∧
    ConfigElement.isCorrectType (.objectE n r c ch) (.arr xs) = false := by
  constructor
  · cases v <;> rfl
  · rfl

/--
C4 counterexample: the claim states validateString accepts a string iff it is
a member of the configured validValues enumeration.  On a string element with
validValues containing ab and minLength 5 — exactly the element the builder
produces via ofTypeString, withName, withMinLength and withValidStringValues
(first conjunct) — the member ab still fails validation: the enumeration
check passes and the length check then records an InvalidValue error, so
membership is not sufficient for acceptance.
-/
theorem claim_C4_counterexample :
    (((((ConfigElementBuilder.ofTypeString newBuilder).bind
          (fun b => b.withName "s")).bind
        (fun b => b.withMinLength 5)).bind
      (fun b => b.withValidStringValues ["ab"])).map
      (fun b => b.stringElement) = .ok (some ceEnumMin)) ∧
    (ConfigElement.getValidValues ceEnumMin).contains "ab" = true ∧
    validateString flagsDefault (.str "ab") ceEnumMin =
      .ok ([VError.invalidValue (lessThanMinMsg 2 5)], ()) :=
  ⟨rfl, rfl, rfl⟩

/--
C4 amended: for a string element with a non-empty validValues enumeration, a
non-member is rejected with exactly one InvalidValue error and the length
checks are skipped entirely; a member passes the enumeration check and then
undergoes the usual minLength and maxLength checks (so it is accepted iff
those pass).
-/
theorem claim_C4_amended (flags : ParserFlags)
    (hthrow : flags.throwOnFirstError = false)
    (n : Option String) (r c : Bool) (dv : Option PrimitiveJSONType)
    (mn mx : Option Int) (vv : List String) (s : String) (hvv : vv ≠ []) :
    (vv.contains s = false →
      validateString flags (.str s) (.stringE n r c dv mn mx vv) =
        .ok ([VError.invalidValue (invalidEnumMsg s vv)], ())) ∧
    (vv.contains s = true →
      validateString flags (.str s) (.stringE n r c dv mn mx vv) =
        checkRange flags (s.length : Int) mn mx) := by
  have hlen : 0 < vv.length := List.length_pos.mpr hvv
  constructor <;> intro hmem
  · have hm : s ∉ vv := by simpa using hmem
    simp [validateString, ConfigElement.isCorrectType, jsTypeof,
      ConfigElement.getValidValues, ConfigElement.getMinLength,
      ConfigElement.getMaxLength, hm, hlen, addError, hthrow]
  · have hm : s ∈ vv := by simpa using hmem
    simp [validateString, ConfigElement.isCorrectType, jsTypeof,
      ConfigElement.getValidValues, ConfigElement.getMinLength,
      ConfigElement.getMaxLength, hm, hlen, addError, hthrow]

/-- C4 witness for the amended theorem at concrete inputs: a non-member is one
InvalidValue with the length checks skipped; a member goes to the length
checks. -/
theorem claim_C4_amended_witness :
    validateString flagsDefault (.str "xy") ceEnumMin =
      .ok ([VError.invalidValue (invalidEnumMsg "xy" ["ab"])], ()) ∧
    validateString flagsDefault (.str "ab") ceEnumMin =
      checkRange flagsDefault (2 : Int) (some 5) none := by
  have h := claim_C4_amended flagsDefault rfl (some "s") true false none
    (some 5) none ["ab"] "xy" (by simp)
  have h2 := claim_C4_amended flagsDefault rfl (some "s") true false none
    (some 5) none ["ab"] "ab" (by simp)
  exact ⟨h.1 rfl, h2.2 rfl⟩

/--
C6: the two ArrayElement shape modes are mutually exclusive at construction
time in both directions: each of the five allowXyzElements methods throws
InvalidConfigurationElementError when orderedElements is non-empty, and
setOrderedElements throws InvalidConfigurationElementError when the typed-set
elements map is non-empty.
-/
theorem claim_C6_shape_modes_exclusive (n : Option String) (r cn an : Bool)
    (els : List (String × ConfigElement)) (oe : List ConfigElement)
    (arg : Option ConfigElement) (lst : List ConfigElement) :
    (oe ≠ [] → ConfigElement.allowNumberElements (.arrayE n r cn an els oe) arg =
      .error (.invalidConfigurationElement
        "ArrayElement already expects ordered element validation")) ∧
    (oe ≠ [] → ConfigElement.allowBooleanElements (.arrayE n r cn an els oe) arg =
      .error (.invalidConfigurationElement
        "ArrayElement already expects ordered element validation")) ∧
    (oe ≠ [] → ConfigElement.allowStringElements (.arrayE n r cn an els oe) arg =
      .error (.invalidConfigurationElement
        "ArrayElement already expects ordered element validation")) ∧
    (oe ≠ [] → ConfigElement.allowObjectElements (.arrayE n r cn an els oe) arg =
      .error (.invalidConfigurationElement
        "ArrayElement already expects ordered element validation")) ∧
    (oe ≠ [] → ConfigElement.allowArrayElements (.arrayE n r cn an els oe) arg =
      .error (.invalidConfigurationElement
        "ArrayElement already expects ordered element validation")) ∧
    (els ≠ [] → ConfigElement.setOrderedElements (.arrayE n r cn an els oe) lst =
      .error (.invalidConfigurationElement
        "ArrayElement already expects allowed element validation")) := by
  refine ⟨?_, ?_, ?_, ?_, ?_, ?_⟩ <;> intro h <;>
    simp [ConfigElement.allowNumberElements, ConfigElement.allowBooleanElements,
      ConfigElement.allowStringElements, ConfigElement.allowObjectElements,
      ConfigElement.allowArrayElements, ConfigElement.allowTaggedElements,
      ConfigElement.setOrderedElements, List.length_pos.mpr h]

/-- C6 witness: both directions of the exclusivity at concrete array
elements. -/
theorem claim_C6_witness :
    ConfigElement.allowNumberElements
        (.arrayE none true false false [] [newStringElement]) none =
      .error (.invalidConfigurationElement
        "ArrayElement already expects ordered element validation") ∧
    ConfigElement.setOrderedElements
        (.arrayE none true false false [("string", newStringElement)] [])
        [newStringElement] =
      .error (.invalidConfigurationElement
        "ArrayElement already expects allowed element validation") := by
  have h1 := (claim_C6_shape_modes_exclusive none true false false []
    [newStringElement] none [newStringElement]).1 (by simp)
  have h2 := (claim_C6_shape_modes_exclusive none true false false
    [("string", newStringElement)] [] none [newStringElement]).2.2.2.2.2 (by simp)
  exact ⟨h1, h2⟩

/--
C7: the builder enforces construction order as errors: every kind-specific
setter throws BuilderMissingOrInvalidOfTypeError while its matching slot is
still unset (the matching ofTypeXyz call has not been made); every ofTypeXyz
throws BuilderElementTypeDeterminedError once the type is fixed; and build
throws BuilderElementTypeUndeterminedError while no ofTypeXyz call was made.
-/
theorem claim_C7_builder_order (b : ConfigElementBuilder) (min max : Int)
    (children lst : List ConfigElement) (ce : Option ConfigElement) :
    (b.stringElement = none → b.withMinLength min =
      .error (.builderMissingOrInvalidOfType "ofTypeString" "withMinLength")) ∧
    (b.stringElement = none → b.withMaxLength max =
      .error (.builderMissingOrInvalidOfType "ofTypeString" "withMaxLength")) ∧
    (b.numberElement = none → b.withMinValue min =
      .error (.builderMissingOrInvalidOfType "ofTypeNumber" "withMinValue")) ∧
    (b.numberElement = none → b.withMaxValue max =
      .error (.builderMissingOrInvalidOfType "ofTypeNumber" "withMaxValue")) ∧
    (b.objectElement = none → b.withChildElements children =
      .error (.builderMissingOrInvalidOfType "ofTypeObject" "withChildElements")) ∧
    (b.arrayElement = none → b.withArrayElementList lst =
      .error (.builderMissingOrInvalidOfType "ofTypeArray" "withArrayElementList")) ∧
    (b.arrayElement = none → b.withNumberArrayElements ce =
      .error (.builderMissingOrInvalidOfType "ofTypeArray" "withNumberArrayElements")) ∧
    (b.arrayElement = none → b.withStringArrayElements ce =
      .error (.builderMissingOrInvalidOfType "ofTypeArray" "withStringElement")) ∧
    (b.arrayElement = none → b.withBooleanArrayElements ce =
      .error (.builderMissingOrInvalidOfType "ofTypeArray" "withBooleanArrayElements")) ∧
    (b.arrayElement = none → b.withArrayArrayElements ce =
      .error (.builderMissingOrInvalidOfType "ofTypeArray" "withArrayArrayElements")) ∧
    (b.arrayElement = none → b.withObjectArrayElements ce =
      .error (.builderMissingOrInvalidOfType "ofTypeArray" "withObjectArrayElements")) ∧
    (b.arrayElement = none → b.withAllowArrayNullElements =
      .error (.builderMissingOrInvalidOfType "ofTypeArray" "withAllowArrayNullElements")) ∧
    (b.type.isSome = true → b.ofTypeObject = .error .builderElementTypeDetermined) ∧
    (b.type.isSome = true → b.ofTypeArray = .error .builderElementTypeDetermined) ∧
    (b.type.isSome = true → b.ofTypeBoolean = .error .builderElementTypeDetermined) ∧
    (b.type.isSome = true → b.ofTypeNumber = .error .builderElementTypeDetermined) ∧
    (b.type.isSome = true → b.ofTypeString = .error .builderElementTypeDetermined) ∧
    (b.type = none → b.build = .error .builderElementTypeUndetermined) := by
  refine ⟨?_, ?_, ?_, ?_, ?_, ?_, ?_, ?_, ?_, ?_, ?_, ?_, ?_, ?_, ?_, ?_, ?_, ?_⟩ <;>
    intro h <;>
    simp [ConfigElementBuilder.withMinLength, ConfigElementBuilder.withMaxLength,
      ConfigElementBuilder.withMinValue, ConfigElementBuilder.withMaxValue,
      ConfigElementBuilder.withChildElements, ConfigElementBuilder.withArrayElementList,
      ConfigElementBuilder.withNumberArrayElements,
      ConfigElementBuilder.withStringArrayElements,
      ConfigElementBuilder.withBooleanArrayElements,
      ConfigElementBuilder.withArrayArrayElements,
      ConfigElementBuilder.withObjectArrayElements,
      ConfigElementBuilder.withAllowArrayNullElements,
      ConfigElementBuilder.ofTypeObject, ConfigElementBuilder.ofTypeArray,
      ConfigElementBuilder.ofTypeBoolean, ConfigElementBuilder.ofTypeNumber,
      ConfigElementBuilder.ofTypeString, ConfigElementBuilder.ofType,
      ConfigElementBuilder.build, h]

/-- C7 witness: a fresh builder rejects a kind-specific setter and build; a
builder whose type is fixed rejects a second ofTypeXyz call. -/
theorem claim_C7_builder_order_witness :
    ConfigElementBuilder.withMinLength newBuilder 3 =
      .error (.builderMissingOrInvalidOfType "ofTypeString" "withMinLength") ∧
    ConfigElementBuilder.ofTypeObject
        { newBuilder with type := some .STRING,
                          stringElement := some newStringElement } =
      .error .builderElementTypeDetermined ∧
    ConfigElementBuilder.build newBuilder = .error .builderElementTypeUndetermined := by
  have h1 := (claim_C7_builder_order newBuilder 3 3 [] [] none).1 rfl
  have h2 := (claim_C7_builder_order
    { newBuilder with type := some ElementType.STRING,
                      stringElement := some newStringElement }
    3 3 [] [] none)
  have h3 := (claim_C7_builder_order newBuilder 3 3 [] [] none)
  exact ⟨h1, h2.2.2.2.2.2.2.2.2.2.2.2.2.1 rfl,
    h3.2.2.2.2.2.2.2.2.2.2.2.2.2.2.2.2.2 rfl⟩

/-! Lemmas for the pruning claim: the loop over declared fields only rewrites
the fields it iterates, and removeFields only drops the listed names. -/

theorem lookupField_setField_ne (l : List (String × JSONValue)) (g f : String)
    (v : JSONValue) (h : f ≠ g) :
    lookupField (setField l g v) f = lookupField l f := by
  induction l with
  | nil => rfl
  | cons p rest ih =>
      obtain ⟨k, w⟩ := p
      have hsf : setField ((k, w) :: rest) g v =
          (if (k == g) = true then (k, v) else (k, w)) :: setField rest g v := rfl
      rw [hsf]
      cases hkg : (k == g) with
      | true =>
          have hke : k = g := eq_of_beq hkg
          have hfk : (f == k) = false := by
            subst hke; exact beq_eq_false_iff_ne.mpr h
          simp only [hkg, if_true, reduceIte]
          simp only [lookupField, List.lookup_cons, hfk]
          exact ih
      | false =>
          simp only [hkg, Bool.false_eq_true, if_false, reduceIte]
          cases hfk : (f == k) with
          | true => simp only [lookupField, List.lookup_cons, hfk]
          | false =>
              simp only [lookupField, List.lookup_cons, hfk]
              exact ih

theorem lookupField_removeFields_notmem (l : List (String × JSONValue))
    (names : List String) (f : String) (h : names.contains f = false) :
    lookupField (removeFields l names) f = lookupField l f := by
  induction l with
  | nil => rfl
  | cons p rest ih =>
      obtain ⟨k, w⟩ := p
      have hrf : removeFields ((k, w) :: rest) names =
          if (!(names.contains k)) = true then (k, w) :: removeFields rest names
          else removeFields rest names := by
        simp only [removeFields, List.filter]
        cases (!names.contains k) <;> simp
      rw [hrf]
      cases hk : names.contains k with
      | true =>
          have hfk : (f == k) = false := by
            cases hbe : (f == k) with
            | true =>
                have : f = k := eq_of_beq hbe
                subst this
                rw [hk] at h
                exact absurd h (by simp)
            | false => rfl
          simp only [hk, Bool.not_true, Bool.false_eq_true, if_false, reduceIte]
          rw [ih]
          simp only [lookupField, List.lookup_cons, hfk]
      | false =>
          simp only [hk, Bool.not_false, if_true, reduceIte]
          cases hfk : (f == k) with
          | true => simp only [lookupField, List.lookup_cons, hfk]
          | false =>
              simp only [lookupField, List.lookup_cons, hfk]
              exact ih

theorem objectFieldsLoop_untouched (step : Step) (ce : ConfigElement) :
    ∀ (flds : List String) (errsCur : List VError)
      (objFields : List (String × JSONValue)) (d : List VError)
      (out : List (String × JSONValue)) (f : String),
      flds.contains f = false →
      objectFieldsLoop step errsCur ce objFields flds = .ok (d, out) →
      lookupField out f = lookupField objFields f := by
  intro flds
  induction flds with
  | nil =>
      intro errsCur objFields d out f _ hrun
      simp only [objectFieldsLoop, pureRes] at hrun
      obtain ⟨-, h2⟩ := Prod.mk.injEq .. ▸ (Except.ok.inj hrun)
      rw [← h2]
  | cons g rest ih =>
      intro errsCur objFields d out f hf hrun
      have hfg : f ≠ g := by
        intro hc; subst hc; simp [List.contains_cons] at hf
      have hfr : rest.contains f = false := by
        simp [List.contains_cons] at hf; simp [hf.2]
      unfold objectFieldsLoop at hrun
      cases hch : ce.getChild g with
      | none =>
          rw [hch] at hrun
          exact ih errsCur objFields d out f hfr hrun
      | some childCe =>
          rw [hch] at hrun
          rw [bindRes_ok_iff] at hrun
          obtain ⟨d1, el, d2, hstep, hrest, hd⟩ := hrun
          have := ih (errsCur ++ d1) (setField objFields g el) d2 out f hfr hrest
          rw [this, lookupField_setField_ne objFields g f el hfg]

/--
C2 counterexample: the claim states that with pruneUnknownElements set, the
presence of any error anywhere in the run prevents removal of undeclared
fields everywhere, including branches validated before the error.  In this run
the valid branch a (validated first) loses its undeclared field extra, and the
later field b then records an InvalidType error: an error is present in the
run, yet an undeclared field was removed.
-/
theorem claim_C2_counterexample :
    validate 5 flagsPrune rootPrune [] inputPrune = .ok (deltaPrune, .obj outPruneFields) ∧
    deltaPrune ≠ [] ∧
    lookupField inputPruneFields "a" = some (.obj [("extra", .num 1)]) ∧
    lookupField outPruneFields "a" = some (.obj []) := by
  refine ⟨rfl, ?_, rfl, rfl⟩
  simp [deltaPrune]

/--
C2 amended: pruning of undeclared fields is decided per object, at the moment
that object finishes validating, from the error list as it stands then.
Consequently an object whose validateObject call starts with a non-empty error
list, or whose own run appends an error, keeps every undeclared non-dollar
field; but branches that completed validation before the first error of the
run was recorded may already have been pruned (see the counterexample).
-/
theorem claim_C2_amended (step : Step) (flags : ParserFlags)
    (errs0 : List VError) (ce : ConfigElement)
    (flds : List (String × JSONValue)) (d : List VError) (w : JSONValue)
    (f : String) (x : JSONValue)
    (hnz : errs0 ≠ [] ∨ d ≠ [])
    (hrun : validateObjectG step flags errs0 (.obj flds) ce = .ok (d, w))
    (hdollar : startsWithDollar f = false)
    (hundeclared : (ce.getChildFieldNames).contains f = false)
    (hpresent : lookupField flds f = some x) :
    ∃ flds2, w = .obj flds2 ∧ lookupField flds2 f = some x := by
  by_cases hct : ce.isCorrectType (.obj flds)
  · simp only [validateObjectG, hct, Bool.not_true, Bool.false_eq_true,
      if_false, reduceIte] at hrun
    rw [bindRes_ok_iff] at hrun
    obtain ⟨d1, u1, drest, hmiss, hrun2, hd⟩ := hrun
    rw [bindRes_ok_iff] at hrun2
    obtain ⟨d2, fields2, d3, hloop, hpure, hdrest⟩ := hrun2
    simp only [pureRes, Except.ok.injEq, Prod.mk.injEq] at hpure
    obtain ⟨hd3, hw⟩ := hpure
    -- the prune-unknown condition is false: the error list is non-empty there
    have hd12 : d = d1 ++ d2 := by
      rw [hd, hdrest, ← hd3, List.append_nil]
    have hne : (errs0 ++ d1 ++ d2).isEmpty = false := by
      cases he : (errs0 ++ d1 ++ d2).isEmpty
      · rfl
      · rw [List.isEmpty_iff, List.append_assoc, List.append_eq_nil] at he
        rcases hnz with h0 | hdn
        · exact absurd he.1 h0
        · exact absurd (hd12.trans he.2) hdn
    have hcond : (flags.pruneUnknownElements &&
        (errs0 ++ d1 ++ d2).isEmpty) = false := by
      rw [hne, Bool.and_false]
    rw [hcond] at hw
    simp only [Bool.false_eq_true, if_false, reduceIte] at hw
    -- undeclared fields are not touched by the declared-fields loop
    have hproc : ((flds.map (fun p => p.1)).filter
        (fun g => (ce.getChildFieldNames).contains g)).contains f = false := by
      by_contra hc
      simp only [Bool.not_eq_false] at hc
      rw [List.contains_iff_exists_mem_beq] at hc
      obtain ⟨g, hg, hbeq⟩ := hc
      rw [beq_iff_eq] at hbeq
      subst hbeq
      rw [List.mem_filter] at hg
      rw [hg.2] at hundeclared
      exact Bool.true_eq_false ▸ hundeclared
    have hf2 : lookupField fields2 f = some x := by
      rw [objectFieldsLoop_untouched step ce _ _ _ _ _ f hproc hloop, hpresent]
    -- dollar pruning does not touch f either
    have hdollarmem : ((flds.map (fun p => p.1)).filter startsWithDollar).contains f
        = false := by
      by_contra hc
      simp only [Bool.not_eq_false] at hc
      rw [List.contains_iff_exists_mem_beq] at hc
      obtain ⟨g, hg, hbeq⟩ := hc
      rw [beq_iff_eq] at hbeq
      subst hbeq
      rw [List.mem_filter] at hg
      rw [hg.2] at hdollar
      exact Bool.true_eq_false ▸ hdollar
    cases hdp : flags.pruneDollarElements
    · rw [hdp] at hw
      simp only [Bool.false_eq_true, if_false] at hw
      exact ⟨fields2, hw.symm, hf2⟩
    · rw [hdp] at hw
      simp only [if_true] at hw
      refine ⟨_, hw.symm, ?_⟩
      rw [lookupField_removeFields_notmem fields2 _ f hdollarmem]
      exact hf2
  · simp only [validateObjectG, hct, Bool.not_false, if_true] at hrun
    rw [bindRes_ok_iff] at hrun
    obtain ⟨d1, u1, d2, hadd, hpure, hd⟩ := hrun
    simp only [pureRes, Except.ok.injEq, Prod.mk.injEq] at hpure
    exact ⟨flds, hpure.2.symm, hpresent⟩

/-- C2 witness for the amended theorem: an object validated while the error
list is already non-empty keeps its undeclared field even with
pruneUnknownElements switched on. -/
theorem claim_C2_amended_witness :
    ∃ flds2, (JSONValue.obj [("extra", JSONValue.num 1)]) = .obj flds2 ∧
      lookupField flds2 "extra" = some (.num 1) := by
  exact claim_C2_amended (fun _ el _ => pureRes el) flagsPrune
    [VError.nullArrayElement] (.objectE none true false [])
    [("extra", .num 1)] [] (.obj [("extra", .num 1)]) "extra" (.num 1)
    (Or.inl (by simp)) rfl rfl rfl rfl

/-! Counting NullArrayElementError occurrences in error deltas. -/

@[simp] theorem countNullArr_nil : countNullArrayErrors [] = 0 := rfl

@[simp] theorem countNullArr_append (d1 d2 : List VError) :
    countNullArrayErrors (d1 ++ d2) =
      countNullArrayErrors d1 + countNullArrayErrors d2 := by
  simp [countNullArrayErrors, List.filter_append]

@[simp] theorem countNullArr_nullArrayElement (rest : List VError) :
    countNullArrayErrors (VError.nullArrayElement :: rest) =
      countNullArrayErrors rest + 1 := by
  simp [countNullArrayErrors, List.filter]

@[simp] theorem countNullArr_invalidValue (s : String) (rest : List VError) :
    countNullArrayErrors (VError.invalidValue s :: rest) =
      countNullArrayErrors rest := by
  simp [countNullArrayErrors, List.filter]

@[simp] theorem countNullArr_invalidType (a b : String) (rest : List VError) :
    countNullArrayErrors (VError.invalidType a b :: rest) =
      countNullArrayErrors rest := by
  simp [countNullArrayErrors, List.filter]

@[simp] theorem countNullArr_nullValue (nm : Option String) (rest : List VError) :
    countNullArrayErrors (VError.nullValue nm :: rest) =
      countNullArrayErrors rest := by
  simp [countNullArrayErrors, List.filter]

@[simp] theorem countNullArr_invalidArrayElementType (a : String) (rest : List VError) :
    countNullArrayErrors (VError.invalidArrayElementType a :: rest) =
      countNullArrayErrors rest := by
  simp [countNullArrayErrors, List.filter]

/-- checkRange with accumulation never records a NullArrayElementError. -/
theorem checkRange_no_nullArr (flags : ParserFlags) (n : Int) (mn mx : Option Int)
    (h : flags.throwOnFirstError = false) :
    ∃ d, checkRange flags n mn mx = .ok (d, ()) ∧ countNullArrayErrors d = 0 := by
  unfold checkRange
  rcases mx with _ | m <;> rcases mn with _ | m2 <;>
    simp only [addError, h, Bool.false_eq_true, if_false, reduceIte] <;>
    first
      | exact ⟨_, rfl, by simp [bindRes, pureRes]⟩
      | (split_ifs <;> exact ⟨_, rfl, by simp [bindRes, pureRes]⟩)

/-- validateBoolean with accumulation never records a NullArrayElementError. -/
theorem validateBoolean_no_nullArr (flags : ParserFlags) (v : JSONValue)
    (ce : ConfigElement) (h : flags.throwOnFirstError = false) :
    ∃ d, validateBoolean flags v ce = .ok (d, ()) ∧ countNullArrayErrors d = 0 := by
  unfold validateBoolean
  cases v <;>
    · simp only [addError, h, Bool.false_eq_true, if_false, reduceIte]
      split_ifs <;> exact ⟨_, rfl, by simp [pureRes]⟩

/-- validateNumber with accumulation never records a NullArrayElementError. -/
theorem validateNumber_no_nullArr (flags : ParserFlags) (v : JSONValue)
    (ce : ConfigElement) (h : flags.throwOnFirstError = false) :
    ∃ d, validateNumber flags v ce = .ok (d, ()) ∧ countNullArrayErrors d = 0 := by
  unfold validateNumber
  cases v <;>
    first
      | (simp only [addError, h, Bool.false_eq_true, if_false, reduceIte]
         split_ifs <;>
           first
             | exact ⟨_, rfl, by simp [pureRes]⟩
             | exact checkRange_no_nullArr flags _ _ _ h)

/-- validateString with accumulation never records a NullArrayElementError. -/
theorem validateString_no_nullArr (flags : ParserFlags) (v : JSONValue)
    (ce : ConfigElement) (h : flags.throwOnFirstError = false) :
    ∃ d, validateString flags v ce = .ok (d, ()) ∧ countNullArrayErrors d = 0 := by
  unfold validateString
  cases v <;>
    first
      | (simp only [addError, h, Bool.false_eq_true, if_false, reduceIte]
         split_ifs <;>
           first
             | exact ⟨_, rfl, by simp [pureRes]⟩
             | exact checkRange_no_nullArr flags _ _ _ h)

/-- validateUnknownElement on a primitive element returns the value unchanged
and records no NullArrayElementError (accumulating mode). -/
theorem vUE_primitive_no_nullArr (fuel : Nat) (flags : ParserFlags)
    (errs : List VError) (el : JSONValue) (ce : ConfigElement)
    (h : flags.throwOnFirstError = false)
    (hprim : ConfigElement.isPrimitiveElement ce = true) :
    ∃ d, validateUnknownElement fuel flags errs el ce = .ok (d, el) ∧
      countNullArrayErrors d = 0 := by
  cases fuel with
  | zero => exact ⟨[], rfl, rfl⟩
  | succ fuel =>
      cases ce
      case objectE => exact absurd hprim (by simp [ConfigElement.isPrimitiveElement])
      case arrayE => exact absurd hprim (by simp [ConfigElement.isPrimitiveElement])
      case booleanE n r c dv =>
          obtain ⟨d, hd, hc⟩ := validateBoolean_no_nullArr flags el (.booleanE n r c dv) h
          exact ⟨d ++ [], by simp only [validateUnknownElement, bindRes, hd, pureRes],
            by simp [hc]⟩
      case numberE n r c dv mn mx =>
          obtain ⟨d, hd, hc⟩ :=
            validateNumber_no_nullArr flags el (.numberE n r c dv mn mx) h
          exact ⟨d ++ [], by simp only [validateUnknownElement, bindRes, hd, pureRes],
            by simp [hc]⟩
      case stringE n r c dv mn mx vv =>
          obtain ⟨d, hd, hc⟩ :=
            validateString_no_nullArr flags el (.stringE n r c dv mn mx vv) h
          exact ⟨d ++ [], by simp only [validateUnknownElement, bindRes, hd, pureRes],
            by simp [hc]⟩

/-- A successful association-list lookup comes from an entry of the list. -/
theorem lookup_mem_assoc (l : List (String × ConfigElement)) (k : String)
    (v : ConfigElement) (h : l.lookup k = some v) : (k, v) ∈ l := by
  induction l with
  | nil => simp [List.lookup] at h
  | cons p rest ih =>
      obtain ⟨a, b⟩ := p
      rw [List.lookup_cons] at h
      cases hk : (k == a) with
      | true =>
          rw [hk] at h
          simp only [Option.some.injEq] at h
          have hka : k = a := eq_of_beq hk
          subst hka
          rw [← h]
          exact List.mem_cons_self _ _
      | false =>
          rw [hk] at h
          exact List.mem_cons_of_mem _ (ih h)

/-- Unfolding of the ordered-tuple loop at a non-null head entry. -/
theorem orderedLoop_cons_notnull (step : Step) (flags : ParserFlags)
    (errsCur : List VError) (allowNull : Bool) (cce : ConfigElement)
    (el : JSONValue) (rest : List (ConfigElement × JSONValue))
    (hne : isNullValue el = false) :
    orderedLoop step flags errsCur allowNull ((cce, el) :: rest) =
      bindRes (step errsCur el cce)
        (fun d el2 => bindRes (orderedLoop step flags (errsCur ++ d) allowNull rest)
          (fun _ rest2 => pureRes (el2 :: rest2))) := by
  cases el
  case null => simp [isNullValue] at hne
  all_goals rfl

/-- Unfolding of the typed-set loop at a non-null head entry. -/
theorem typedSetLoop_cons_notnull (step : Step) (flags : ParserFlags)
    (errsCur : List VError) (ce : ConfigElement) (el : JSONValue)
    (rest : List JSONValue) (hne : isNullValue el = false) :
    typedSetLoop step flags errsCur ce (el :: rest) =
      (if !(ce.isValidElementType (elemTypeOf el)) then
        bindRes (addError flags (.invalidArrayElementType (elemTypeOf el)))
          (fun d _ => bindRes (typedSetLoop step flags (errsCur ++ d) ce rest)
            (fun _ rest2 => pureRes (el :: rest2)))
      else
        match ce.getElementConfig (elemTypeOf el) with
        | some cce =>
            bindRes (step errsCur el cce)
              (fun d el2 => bindRes (typedSetLoop step flags (errsCur ++ d) ce rest)
                (fun _ rest2 => pureRes (el2 :: rest2)))
        | none =>
            bindRes (typedSetLoop step flags errsCur ce rest)
              (fun _ rest2 => pureRes (el :: rest2))) := by
  cases el
  case null => simp [isNullValue] at hne
  all_goals rfl

/-- The ordered-tuple loop with nulls disallowed and primitive positional
elements records exactly one NullArrayElementError per null entry. -/
theorem orderedLoop_count (flags : ParserFlags)
    (h : flags.throwOnFirstError = false) (step : Step)
    (hstep : ∀ e el c, ConfigElement.isPrimitiveElement c = true →
      ∃ d, step e el c = .ok (d, el) ∧ countNullArrayErrors d = 0) :
    ∀ (pairs : List (ConfigElement × JSONValue)) (errsCur : List VError),
      (∀ p ∈ pairs, ConfigElement.isPrimitiveElement (Prod.fst p) = true) →
      ∃ d out, orderedLoop step flags errsCur false pairs = .ok (d, out) ∧
        countNullArrayErrors d = ((pairs.map Prod.snd).filter isNullValue).length := by
  intro pairs
  induction pairs with
  | nil => intro errsCur hp; exact ⟨[], [], rfl, rfl⟩
  | cons p rest ih =>
      intro errsCur hp
      obtain ⟨cce, el⟩ := p
      have hprim : ConfigElement.isPrimitiveElement cce = true := hp (cce, el) (by simp)
      have hrestp : ∀ q ∈ rest, ConfigElement.isPrimitiveElement (Prod.fst q) = true :=
        fun q hq => hp q (List.mem_cons_of_mem _ hq)
      by_cases hn : isNullValue el = true
      · have hel : el = .null := by
          cases el <;> simp [isNullValue] at hn ⊢
        subst hel
        obtain ⟨d2, out2, hrun2, hcount2⟩ :=
          ih (errsCur ++ [VError.nullArrayElement]) hrestp
        refine ⟨[VError.nullArrayElement] ++ (d2 ++ []), .null :: out2, ?_, ?_⟩
        · simp only [orderedLoop, Bool.not_false, if_true, reduceIte, addError, h,
            Bool.false_eq_true, if_false, bindRes, hrun2, pureRes]
        · simp [hcount2, List.filter_cons, isNullValue]
      · have hne : isNullValue el = false := by simpa using hn
        obtain ⟨d1, hs1, hc1⟩ := hstep errsCur el cce hprim
        obtain ⟨d2, out2, hrun2, hcount2⟩ := ih (errsCur ++ d1) hrestp
        refine ⟨d1 ++ (d2 ++ []), el :: out2, ?_, ?_⟩
        · rw [orderedLoop_cons_notnull step flags errsCur false cce el rest hne, hs1]
          simp only [bindRes, hrun2, pureRes]
        · simp [hc1, hcount2, List.filter_cons, hne]

/-- The typed-set loop with nulls disallowed and primitive slot elements
records exactly one NullArrayElementError per null entry. -/
theorem typedSetLoop_count (flags : ParserFlags)
    (h : flags.throwOnFirstError = false) (step : Step)
    (hstep : ∀ e el c, ConfigElement.isPrimitiveElement c = true →
      ∃ d, step e el c = .ok (d, el) ∧ countNullArrayErrors d = 0)
    (ce : ConfigElement)
    (hels : ∀ p ∈ ce.getElementsMap, ConfigElement.isPrimitiveElement (Prod.snd p) = true)
    (hnull : ce.allowNullElements = false) :
    ∀ (xs : List JSONValue) (errsCur : List VError),
      ∃ d out, typedSetLoop step flags errsCur ce xs = .ok (d, out) ∧
        countNullArrayErrors d = (xs.filter isNullValue).length := by
  intro xs
  induction xs with
  | nil => intro errsCur; exact ⟨[], [], rfl, rfl⟩
  | cons el rest ih =>
      intro errsCur
      by_cases hn : isNullValue el = true
      · have hel : el = .null := by
          cases el <;> simp [isNullValue] at hn ⊢
        subst hel
        obtain ⟨d2, out2, hrun2, hcount2⟩ := ih (errsCur ++ [VError.nullArrayElement])
        refine ⟨[VError.nullArrayElement] ++ (d2 ++ []), .null :: out2, ?_, ?_⟩
        · simp only [typedSetLoop, hnull, Bool.not_false, if_true, reduceIte,
            addError, h, Bool.false_eq_true, if_false, bindRes, hrun2, pureRes]
        · simp [hcount2, List.filter_cons, isNullValue]
      · have hne : isNullValue el = false := by simpa using hn
        rw [typedSetLoop_cons_notnull step flags errsCur ce el rest hne]
        by_cases hval : ce.isValidElementType (elemTypeOf el) = true
        · have hcce0 : (ce.getElementConfig (elemTypeOf el)).isSome = true := by
            simpa [ConfigElement.isValidElementType,
              ConfigElement.getElementConfig] using hval
          obtain ⟨cce, hcce⟩ := Option.isSome_iff_exists.mp hcce0
          have hprim : ConfigElement.isPrimitiveElement cce = true :=
            hels _ (lookup_mem_assoc _ _ _ hcce)
          obtain ⟨d1, hs1, hc1⟩ := hstep errsCur el cce hprim
          obtain ⟨d2, out2, hrun2, hcount2⟩ := ih (errsCur ++ d1)
          refine ⟨d1 ++ (d2 ++ []), el :: out2, ?_, ?_⟩
          · rw [hval]
            simp only [Bool.not_true, Bool.false_eq_true, if_false, reduceIte]
            rw [show ce.getElementConfig (elemTypeOf el) = some cce from hcce]
            simp only [hs1, bindRes, hrun2, pureRes]
          · simp [hc1, hcount2, List.filter_cons, hne]
        · have hval2 : ce.isValidElementType (elemTypeOf el) = false := by
            simpa using hval
          obtain ⟨d2, out2, hrun2, hcount2⟩ :=
            ih (errsCur ++ [VError.invalidArrayElementType (elemTypeOf el)])
          refine ⟨[VError.invalidArrayElementType (elemTypeOf el)] ++ (d2 ++ []),
            el :: out2, ?_, ?_⟩
          · rw [hval2]
            simp only [Bool.not_false, if_true, reduceIte, addError, h,
              Bool.false_eq_true, if_false, bindRes, hrun2, pureRes]
          · simp [hcount2, List.filter_cons, hne]

/--
C8: null-entry error granularity by array shape mode, for an ArrayElement
with allowNullElements false validated in accumulating mode.  In Any mode an
array with one or more null entries produces exactly one aggregate
NullArrayElementError.  In ordered-tuple mode (primitive positional elements,
matching length) and in typed-set mode (primitive slot elements) the run
produces exactly one NullArrayElementError per null entry.
-/
theorem claim_C8_null_granularity (fuel : Nat) (flags : ParserFlags)
    (errs0 : List VError) (n : Option String) (r cn : Bool)
    (array : List JSONValue) (hthrow : flags.throwOnFirstError = false) :
    ((array.filter isNullValue).length > 0 →
      validateUnknownElement (fuel + 1) flags errs0 (.arr array)
          (.arrayE n r cn false [] []) =
        .ok ([VError.nullArrayElement], .arr array)) ∧
    (∀ oe : List ConfigElement, oe ≠ [] →
      (∀ e ∈ oe, ConfigElement.isPrimitiveElement e = true) →
      oe.length = array.length →
      ∃ d out, validateUnknownElement (fuel + 1) flags errs0 (.arr array)
          (.arrayE n r cn false [] oe) = .ok (d, .arr out) ∧
        countNullArrayErrors d = (array.filter isNullValue).length) ∧
    (∀ els : List (String × ConfigElement), els ≠ [] →
      (∀ p ∈ els, ConfigElement.isPrimitiveElement (Prod.snd p) = true) →
      ∃ d out, validateUnknownElement (fuel + 1) flags errs0 (.arr array)
          (.arrayE n r cn false els []) = .ok (d, .arr out) ∧
        countNullArrayErrors d = (array.filter isNullValue).length) := by
  have hstep2 : ∀ e el c, ConfigElement.isPrimitiveElement c = true →
      ∃ d, validateUnknownElement fuel flags e el c = .ok (d, el) ∧
        countNullArrayErrors d = 0 :=
    fun e el c hc => vUE_primitive_no_nullArr fuel flags e el c hthrow hc
  refine ⟨?_, ?_, ?_⟩
  · intro hlen
    simp [validateUnknownElement, validateArrayG, ConfigElement.isCorrectType,
      jsTypeof, isArrayV, ConfigElement.allowAnyElement, ConfigElement.getElementsMap,
      ConfigElement.getOrderedElements, ConfigElement.allowNullElements, hlen,
      addError, hthrow, bindRes, pureRes]
  · intro oe hoe hprim hlen
    have hpairs : ∀ p ∈ oe.zip array,
        ConfigElement.isPrimitiveElement (Prod.fst p) = true := by
      intro p hp
      exact hprim p.1 (List.of_mem_zip hp).1
    obtain ⟨d, out, hloop, hcount⟩ := orderedLoop_count flags hthrow
      (fun e el c => validateUnknownElement fuel flags e el c) hstep2
      (oe.zip array) errs0 hpairs
    refine ⟨d ++ [], out, ?_, ?_⟩
    · have hoeE : oe.isEmpty = false := by
        cases oe with
        | nil => exact absurd rfl hoe
        | cons a l => rfl
      have hlen2 : ¬(oe.length ≠ array.length) := by simp [hlen]
      simp only [validateUnknownElement]
      simp [validateArrayG, ConfigElement.isCorrectType, jsTypeof, isArrayV,
        ConfigElement.allowAnyElement, ConfigElement.getElementsMap,
        ConfigElement.getOrderedElements, ConfigElement.allowNullElements,
        hoeE, hoe, List.length_pos, hlen2, hloop, bindRes, pureRes]
    · have hmz := List.map_snd_zip oe array (le_of_eq hlen.symm)
      rw [hmz] at hcount
      simp [hcount]
  · intro els hels hprim
    obtain ⟨d, out, hloop, hcount⟩ := typedSetLoop_count flags hthrow
      (fun e el c => validateUnknownElement fuel flags e el c) hstep2
      (.arrayE n r cn false els []) hprim rfl array errs0
    refine ⟨d ++ [], out, ?_, ?_⟩
    · have helsE : els.isEmpty = false := by
        cases els with
        | nil => exact absurd rfl hels
        | cons a l => rfl
      simp only [validateUnknownElement]
      simp [validateArrayG, ConfigElement.isCorrectType, jsTypeof, isArrayV,
        ConfigElement.allowAnyElement, ConfigElement.getElementsMap,
        ConfigElement.getOrderedElements, helsE, hloop, bindRes, pureRes]
    · simp [hcount]

/-- C8 witness: an all-mode comparison at concrete arrays: two nulls give one
aggregate error in Any mode, and one error per null position in ordered-tuple
and typed-set modes. -/
theorem claim_C8_witness :
    (validateUnknownElement 1 flagsDefault [] (.arr [.null, .null])
        (.arrayE none true false false [] []) =
      .ok ([VError.nullArrayElement], .arr [.null, .null])) ∧
    (∃ d out, validateUnknownElement 1 flagsDefault []
        (.arr [.null, .bool true, .null])
        (.arrayE none true false false []
          [newBooleanElement, newBooleanElement, newBooleanElement]) =
      .ok (d, .arr out) ∧ countNullArrayErrors d = 2) ∧
    (∃ d out, validateUnknownElement 1 flagsDefault []
        (.arr [.null, .bool true, .null])
        (.arrayE none true false false [("boolean", newBooleanElement)] []) =
      .ok (d, .arr out) ∧ countNullArrayErrors d = 2) := by
  have h1 := claim_C8_null_granularity 0 flagsDefault [] none true false
    [.null, .null] rfl
  have h2 := claim_C8_null_granularity 0 flagsDefault [] none true false
    [.null, .bool true, .null] rfl
  refine ⟨h1.1 (by decide), ?_, ?_⟩
  · obtain ⟨d, out, he, hc⟩ := h2.2.1
      [newBooleanElement, newBooleanElement, newBooleanElement]
      (by simp) (by decide) (by decide)
    exact ⟨d, out, he, hc⟩
  · obtain ⟨d, out, he, hc⟩ := h2.2.2 [("boolean", newBooleanElement)]
      (by simp) (by decide)
    exact ⟨d, out, he, hc⟩

/--
C9: error-delivery modes of the parser.  With throwOnFirstError the run either
appends no error and validate completes cleanly, or the first recorded
validation error is itself thrown out of addError — parse delivers that
specific error (threwFirst), the traversal is aborted with that error as the
only one recorded in the run, and no generic wrapper is raised by it.  Without
the flag the traversal always completes (validate returns ok), and parse then
throws the generic ConfigParseFailureError iff the error list is non-empty,
otherwise returning the decoded (possibly pruned) tree.
-/
theorem claim_C9_error_modes (fuel : Nat) (flags : ParserFlags)
    (root : ConfigElement) (errs0 : List VError) (json : JSONValue) :
    (flags.throwOnFirstError = true →
      (∃ e, validate fuel flags root errs0 json = .error (e, [e]) ∧
        parse fuel flags root errs0 json = (.threwFirst e, errs0 ++ [e])) ∨
      (∃ v2, validate fuel flags root errs0 json = .ok ([], v2))) ∧
    (flags.throwOnFirstError = false →
      ∃ d v2, validate fuel flags root errs0 json = .ok (d, v2)) ∧
    (∀ d v2, validate fuel flags root errs0 json = .ok (d, v2) →
      parse fuel flags root errs0 json =
        (if (errs0 ++ d).isEmpty then ParseResult.ok v2 else .parseFailure,
          errs0 ++ d)) := by
  refine ⟨?_, ?_, ?_⟩
  · intro ht
    have hg := goodRes_validate true fuel flags ht root errs0 json
    rcases hg with ⟨a, ha⟩ | ⟨e, he⟩
    · exact Or.inr ⟨a, ha⟩
    · exact Or.inl ⟨e, he, by simp [parse, he]⟩
  · intro hf
    exact goodRes_validate false fuel flags hf root errs0 json
  · intro d v2 hok
    cases hc : (errs0 ++ d).isEmpty <;> simp [parse, hok, hc]

/-- C9 witness: a throw-mode run on an invalid input delivers a thrown first
error or a clean result, and an accumulating clean run returns the tree. -/
theorem claim_C9_witness :
    ((∃ e, validate 5 flagsThrow rootNum [] (.obj [("x", .str "no")]) =
        .error (e, [e]) ∧
      parse 5 flagsThrow rootNum [] (.obj [("x", .str "no")]) =
        (.threwFirst e, [] ++ [e])) ∨
     (∃ v2, validate 5 flagsThrow rootNum [] (.obj [("x", .str "no")]) =
        .ok ([], v2))) ∧
    parse 5 flagsDefault rootNum [] (.obj [("x", .num 5)]) =
      (if (([] : List VError) ++ []).isEmpty then
        ParseResult.ok (.obj [("x", .num 5)]) else .parseFailure,
        ([] : List VError) ++ []) := by
  constructor
  · exact (claim_C9_error_modes 5 flagsThrow rootNum []
      (.obj [("x", .str "no")])).1 rfl
  · exact (claim_C9_error_modes 5 flagsDefault rootNum []
      (.obj [("x", .num 5)])).2.2 [] (.obj [("x", .num 5)]) rfl

/--
C10: getErrors returns a fresh copy of the internal error list.  Under the
store model, the returned reference is distinct from the internal reference of
the parser, its contents equal the internal list at the time of the call, and
any mutation through the returned reference leaves the internal list — and
therefore the outcome of any later getErrors or parse call, which is a
function of that list — unchanged.
-/
theorem claim_C10_getErrors_copy (st : ErrStore) (r : Nat)
    (h : r < st.arrays.length) (newContent : List VError)
    (fuel : Nat) (flags : ParserFlags) (root : ConfigElement) (json : JSONValue) :
    (getErrorsRef st r).1 ≠ r ∧
    readArr (getErrorsRef st r).2 (getErrorsRef st r).1 = readArr st r ∧
    readArr (writeArr (getErrorsRef st r).2 (getErrorsRef st r).1 newContent) r =
      readArr st r ∧
    parse fuel flags root
        (readArr (writeArr (getErrorsRef st r).2 (getErrorsRef st r).1 newContent) r)
        json =
      parse fuel flags root (readArr st r) json := by
  have hcopy : readArr (getErrorsRef st r).2 (getErrorsRef st r).1 = readArr st r := by
    simp [getErrorsRef, readArr, List.getD]
  have hframe :
      readArr (writeArr (getErrorsRef st r).2 (getErrorsRef st r).1 newContent) r =
        readArr st r := by
    simp [getErrorsRef, writeArr, readArr, List.getD, List.getElem?_append_left h]
  exact ⟨h.ne', hcopy, hframe, by rw [hframe]⟩

/-- C10 witness at a concrete store: one parser whose error list holds one
error; clearing the copy does not change the internal list. -/
theorem claim_C10_getErrors_copy_witness :
    (getErrorsRef ⟨[[VError.nullArrayElement]]⟩ 0).1 ≠ 0 ∧
    readArr (getErrorsRef ⟨[[VError.nullArrayElement]]⟩ 0).2
        (getErrorsRef ⟨[[VError.nullArrayElement]]⟩ 0).1 =
      readArr ⟨[[VError.nullArrayElement]]⟩ 0 ∧
    readArr (writeArr (getErrorsRef ⟨[[VError.nullArrayElement]]⟩ 0).2
        (getErrorsRef ⟨[[VError.nullArrayElement]]⟩ 0).1 []) 0 =
      readArr ⟨[[VError.nullArrayElement]]⟩ 0 ∧
    parse 5 flagsDefault rootNum
        (readArr (writeArr (getErrorsRef ⟨[[VError.nullArrayElement]]⟩ 0).2
          (getErrorsRef ⟨[[VError.nullArrayElement]]⟩ 0).1 []) 0)
        (.obj [("x", .num 5)]) =
      parse 5 flagsDefault rootNum (readArr ⟨[[VError.nullArrayElement]]⟩ 0)
        (.obj [("x", .num 5)]) := by
  exact claim_C10_getErrors_copy ⟨[[VError.nullArrayElement]]⟩ 0 (by decide) []
    5 flagsDefault rootNum (.obj [("x", .num 5)])

end ConfigParserTs
